import Mathlib

/-!
# AirMap telemetry bridge (`src/Airmap/AirMapTelemetry.cc`)

A shallow embedding of `AirMapTelemetry`: the object is a record of its four
data members, every member function is a pure function from the object to the
updated object together with the list of externally visible effects it causes
(log lines, requests handed to the AirMap client, telemetry submissions, the
`error` signal), in program order.

Conventions.
* `QString` and `std::string` are both `String`; `toStdString` and
  `fromStdString` are the identity.
* `float` and `double` values are the rationals they denote. Arithmetic on
  them is IEEE 754 binary32 / binary64 with round-to-nearest, ties-to-even,
  computed exactly by `roundSig`. A decimal value given for a `double`, such
  as a latitude of `37.7749`, is the `double` of that literal, `doubleLiteral`.
* The completion lambdas handed to `start_flight_communications` and
  `end_flight_communications` are functions of their own; their first argument
  is the outcome of `isAlive.lock()`.
* An execution is a list of events (`Op`) on a live bridge, run one after the
  other by `run`; results may be delivered in any order and any number of
  times, since the client is outside the bridge.
-/

namespace AirMap

/-! ## Binary floating point -/

/-- Nearest integer to `a / b` for `b > 0`, a tie going to the even neighbour. -/
def divRoundHalfEven (a : Int) (b : Nat) : Int :=
  let f := a / (b : Int)
  let r := a % (b : Int)
  if 2 * r < (b : Int) then f
  else if (b : Int) < 2 * r then f + 1
  else if f % 2 = 0 then f else f + 1

/-- Number of halvings needed to bring `n` below 2, at most `fuel` of them. -/
def log2Fuel : Nat → Nat → Nat
  | 0, _ => 0
  | fuel + 1, n => if 2 ≤ n then log2Fuel fuel (n / 2) + 1 else 0

/-- Floor of the base-2 logarithm of `a / b` for `a, b > 0`. -/
def floorLog2 (a b : Nat) : Int :=
  let e : Int := (log2Fuel a a : Int) - (log2Fuel b b : Int)
  if 0 ≤ e then (if b * 2 ^ e.toNat ≤ a then e else e - 1)
  else (if b ≤ a * 2 ^ (-e).toNat then e else e - 1)

/-- Correct rounding of the exact quotient `a / b` (`b > 0`) into the binary
format with `p` significand bits and least exponent `emin`: the result is the
pair `(m, s)` denoting `m * 2 ^ s`, where `2 ^ s` is one unit in the last place
of the binade of `a / b` (of the subnormal range below `2 ^ emin`). Quotients
beyond the largest finite number do not arise for the 16 and 32 bit integer
operands of this file, and the exponent is not bounded above. -/
def roundSig (p : Nat) (emin : Int) (a : Int) (b : Nat) : Int × Int :=
  if a = 0 then (0, 0) else
  let e0 := floorLog2 a.natAbs b
  let e := if e0 < emin then emin else e0
  let s : Int := e - ((p : Int) - 1)
  let m : Int :=
    if 0 ≤ s then divRoundHalfEven a (b * 2 ^ s.toNat)
    else divRoundHalfEven (a * 2 ^ (-s).toNat) b
  (m, s)

/-- The rational denoted by a significand and exponent pair. -/
def sigValue (x : Int × Int) : ℚ := (x.1 : ℚ) * (2 : ℚ) ^ x.2

/-- The integer denoted by a significand and exponent pair whose value is an
integer. -/
def sigInt (x : Int × Int) : Int :=
  if 0 ≤ x.2 then x.1 * 2 ^ x.2.toNat else x.1 / 2 ^ (-x.2).toNat

/-- Conversion `(float) n` of a machine integer: the nearest binary32 number,
which is again an integer. -/
def floatOfInt (n : Int) : Int := sigInt (roundSig 24 (-126) n 1)

/-- The binary32 quotient `a / b` of two binary32 numbers with integer values
`a` and `b > 0`. -/
def floatDiv (a : Int) (b : Nat) : ℚ := sigValue (roundSig 24 (-126) a b)

/-- The binary64 quotient `a / b` of two binary64 numbers with integer values
`a` and `b > 0`. -/
def doubleDiv (a : Int) (b : Nat) : ℚ := sigValue (roundSig 53 (-1022) a b)

/-- The `double` that the decimal literal with digits `digits` and `scale`
decimal places denotes: the binary64 number nearest to `digits / 10 ^ scale`;
`doubleLiteral 377749 4` is the `double` written `37.7749`. -/
def doubleLiteral (digits : Int) (scale : Nat) : ℚ := doubleDiv digits (10 ^ scale)

/-! ## Data -/

/-- The enumeration `AirMapTelemetry::State`. -/
inductive State where
  | Idle
  | StartCommunication
  | EndCommunication
  | Streaming
  deriving DecidableEq, Repr

/-- The fields of `mavlink_gps_raw_int_t` the bridge reads; `eph` is a
`uint16_t`. -/
structure mavlink_gps_raw_int_t where
  eph : Nat
  deriving DecidableEq, Repr

/-- The fields of `mavlink_global_position_int_t` the bridge reads; `lat`,
`lon`, `alt` and `relative_alt` are `int32_t`, the velocities `int16_t`. -/
structure mavlink_global_position_int_t where
  lat : Int
  lon : Int
  alt : Int
  relative_alt : Int
  vx : Int
  vy : Int
  vz : Int
  deriving DecidableEq, Repr

/-- A received MAVLink frame: its message id and its payload bytes. -/
structure mavlink_message_t where
  msgid : Nat
  payload : List Nat
  deriving DecidableEq, Repr

/-- What the bridge uses of the MAVLink C library, which is not part of the
repository: the two message ids that label the `case`s of the dispatching
`switch` (distinct, as case labels are) and the two payload decoders. -/
structure Mavlink where
  MAVLINK_MSG_ID_GLOBAL_POSITION_INT : Nat
  MAVLINK_MSG_ID_GPS_RAW_INT : Nat
  case_labels_distinct : MAVLINK_MSG_ID_GLOBAL_POSITION_INT ≠ MAVLINK_MSG_ID_GPS_RAW_INT
  mavlink_msg_gps_raw_int_decode : mavlink_message_t → mavlink_gps_raw_int_t
  mavlink_msg_global_position_int_decode : mavlink_message_t → mavlink_global_position_int_t

/-- The constant `UINT16_MAX`. -/
def UINT16_MAX : Nat := 65535

/-- The aggregate `Telemetry::Position`, fields in initialisation order. -/
structure Position where
  timestamp : Nat
  latitude : ℚ
  longitude : ℚ
  altitude_msl : ℚ
  altitude_gl : ℚ
  horizontal_accuracy : ℚ
  deriving DecidableEq

/-- The aggregate `Telemetry::Speed`, fields in initialisation order. -/
structure Speed where
  timestamp : Nat
  velocity_x : ℚ
  velocity_y : ℚ
  velocity_z : ℚ
  deriving DecidableEq

/-- The variant `Telemetry::Update`. -/
inductive Update where
  | position (p : Position)
  | speed (s : Speed)
  deriving DecidableEq

/-- The part of `Flight` the bridge sets. -/
structure Flight where
  id : String
  deriving DecidableEq, Repr

/-- The request parameters `Flights::StartFlightCommunications::Parameters`
and `Flights::EndFlightCommunications::Parameters`. -/
structure Parameters where
  authorization : String
  id : String
  deriving DecidableEq, Repr

/-- The error carried by a failed request: a message and an optional
description. -/
structure Error where
  message : String
  description : Option String
  deriving DecidableEq, Repr

/-- The value of a successful `StartFlightCommunications` result. -/
structure Response where
  key : String
  deriving DecidableEq, Repr

/-- What `AirMapSharedState` provides besides the client. -/
structure AirMapSharedState where
  loginToken : String
  deriving DecidableEq, Repr

/-- Everything a member function does to the outside, in program order. -/
inductive Effect where
  | qCWarning (text : String) (state : State)
  | qCInfo (text : String) (flightID : String)
  | start_flight_communications (params : Parameters)
  | end_flight_communications (params : Parameters)
  | submit_updates (flight : Flight) (key : String) (updates : List Update)
  | error (title : String) (message : String) (description : String)
  deriving DecidableEq

/-- The data members of `AirMapTelemetry`; `_lastHdop` is a `float`. -/
structure AirMapTelemetry where
  _state : State
  _flightID : String
  _key : String
  _lastHdop : ℚ
  deriving DecidableEq

namespace AirMapTelemetry

/-! ## Member functions -/

/-- `AirMapTelemetry::isTelemetryStreaming`. -/
def isTelemetryStreaming (self : AirMapTelemetry) : Bool :=
  self._state == State.Streaming

/-- `AirMapTelemetry::_handleGPSRawInt`. -/
def _handleGPSRawInt (lib : Mavlink) (message : mavlink_message_t)
    (self : AirMapTelemetry) : AirMapTelemetry × List Effect :=
  if !self.isTelemetryStreaming then (self, [])
  else
    let gps_raw := lib.mavlink_msg_gps_raw_int_decode message
    if gps_raw.eph = UINT16_MAX then
      ({ self with _lastHdop := 1 }, [])
    else
      ({ self with _lastHdop := floatDiv gps_raw.eph 100 }, [])

/-- `AirMapTelemetry::_handleGlobalPositionInt`; `clock i` is what the
`i`-th evaluation of `milliseconds_since_epoch(Clock::universal_time())` in
this call returns. -/
def _handleGlobalPositionInt (lib : Mavlink) (clock : Nat → Nat)
    (message : mavlink_message_t) (self : AirMapTelemetry) :
    AirMapTelemetry × List Effect :=
  if !self.isTelemetryStreaming then (self, [])
  else
    let globalPosition := lib.mavlink_msg_global_position_int_decode message
    let position : Position :=
      { timestamp := clock 0
        latitude := doubleDiv globalPosition.lat 10000000
        longitude := doubleDiv globalPosition.lon 10000000
        altitude_msl := floatDiv (floatOfInt globalPosition.alt) 1000
        altitude_gl := floatDiv (floatOfInt globalPosition.relative_alt) 1000
        horizontal_accuracy := self._lastHdop }
    let speed : Speed :=
      { timestamp := clock 1
        velocity_x := floatDiv globalPosition.vx 100
        velocity_y := floatDiv globalPosition.vy 100
        velocity_z := floatDiv globalPosition.vz 100 }
    let flight : Flight := { id := self._flightID }
    (self, [Effect.submit_updates flight self._key
              [Update.position position, Update.speed speed]])

/-- `AirMapTelemetry::vehicleMavlinkMessageReceived`. -/
def vehicleMavlinkMessageReceived (lib : Mavlink) (clock : Nat → Nat)
    (message : mavlink_message_t) (self : AirMapTelemetry) :
    AirMapTelemetry × List Effect :=
  if message.msgid = lib.MAVLINK_MSG_ID_GLOBAL_POSITION_INT then
    _handleGlobalPositionInt lib clock message self
  else if message.msgid = lib.MAVLINK_MSG_ID_GPS_RAW_INT then
    _handleGPSRawInt lib message self
  else (self, [])

/-- `AirMapTelemetry::startTelemetryStream`, up to handing the request and its
completion lambda to the client. -/
def startTelemetryStream (shared : AirMapSharedState) (flightID : String)
    (self : AirMapTelemetry) : AirMapTelemetry × List Effect :=
  if self._state ≠ State.Idle then
    (self, [Effect.qCWarning "Not starting telemetry: not in idle state:" self._state])
  else
    let self1 : AirMapTelemetry :=
      { self with _state := State.StartCommunication, _flightID := flightID }
    let params : Parameters :=
      { authorization := shared.loginToken, id := self1._flightID }
    (self1, [Effect.qCInfo "Starting Telemetry stream with flightID" flightID,
             Effect.start_flight_communications params])

/-- The completion lambda of `startTelemetryStream`; `isAlive` is the outcome
of `isAlive.lock()`. -/
def start_flight_communications_callback (isAlive : Bool)
    (result : Except Error Response) (self : AirMapTelemetry) :
    AirMapTelemetry × List Effect :=
  if !isAlive then (self, [])
  else if self._state ≠ State.StartCommunication then (self, [])
  else
    match result with
    | Except.ok value =>
      ({ self with _key := value.key, _state := State.Streaming }, [])
    | Except.error err =>
      let description : String :=
        match err.description with
        | some d => d
        | none => ""
      ({ self with _state := State.Idle },
       [Effect.error "Failed to start telemetry streaming" err.message description])

/-- `AirMapTelemetry::stopTelemetryStream`, up to handing the request and its
completion lambda to the client. -/
def stopTelemetryStream (shared : AirMapSharedState) (self : AirMapTelemetry) :
    AirMapTelemetry × List Effect :=
  if self._state = State.Idle then (self, [])
  else
    let self1 : AirMapTelemetry := { self with _state := State.EndCommunication }
    let params : Parameters :=
      { authorization := shared.loginToken, id := self1._flightID }
    (self1, [Effect.qCInfo "Stopping Telemetry stream with flightID" self._flightID,
             Effect.end_flight_communications params])

/-- The completion lambda of `stopTelemetryStream`; `isAlive` is the outcome
of `isAlive.lock()`, and the result is unused. -/
def end_flight_communications_callback (isAlive : Bool)
    (_result : Except Error Unit) (self : AirMapTelemetry) :
    AirMapTelemetry × List Effect :=
  if !isAlive then (self, [])
  else if self._state ≠ State.EndCommunication then (self, [])
  else ({ self with _key := "", _state := State.Idle }, [])

end AirMapTelemetry

/-! ## Reading effect lists -/

/-- Whether an effect is a start-session request. -/
def Effect.isStartRequest : Effect → Bool
  | Effect.start_flight_communications _ => true
  | _ => false

/-- Whether an effect is an end-session request. -/
def Effect.isEndRequest : Effect → Bool
  | Effect.end_flight_communications _ => true
  | _ => false

/-- Whether an effect is a telemetry submission. -/
def Effect.isSubmit : Effect → Bool
  | Effect.submit_updates _ _ _ => true
  | _ => false

/-- Whether an effect is an emission of the `error` signal. -/
def Effect.isError : Effect → Bool
  | Effect.error _ _ _ => true
  | _ => false

/-! ## A concrete MAVLink library for evaluation -/

/-- Little-endian unsigned integer of `n` bytes at offset `off`. -/
def readLE (bytes : List Nat) (off n : Nat) : Nat :=
  ((bytes.drop off).take n).foldr (fun b acc => b % 256 + 256 * acc) 0

/-- Two's-complement reading of a `w`-bit pattern. -/
def toSigned (w : Nat) (u : Nat) : Int :=
  if u < 2 ^ (w - 1) then (u : Int) else (u : Int) - 2 ^ w

/-- The `common` dialect: ids 33 and 24 and the wire layouts of the two
payloads. -/
def commonDialect : Mavlink where
  MAVLINK_MSG_ID_GLOBAL_POSITION_INT := 33
  MAVLINK_MSG_ID_GPS_RAW_INT := 24
  case_labels_distinct := by decide
  mavlink_msg_gps_raw_int_decode := fun m => { eph := readLE m.payload 20 2 }
  mavlink_msg_global_position_int_decode := fun m =>
    { lat := toSigned 32 (readLE m.payload 4 4)
      lon := toSigned 32 (readLE m.payload 8 4)
      alt := toSigned 32 (readLE m.payload 12 4)
      relative_alt := toSigned 32 (readLE m.payload 16 4)
      vx := toSigned 16 (readLE m.payload 20 2)
      vy := toSigned 16 (readLE m.payload 22 2)
      vz := toSigned 16 (readLE m.payload 24 2) }

/-! ## Sample inputs -/

/-- A shared state whose login token is `"token"`. -/
def sampleShared : AirMapSharedState := { loginToken := "token" }

/-- A bridge in state `s` with flight `"F1"`, key `"K1"` and HDOP `1`. -/
def sampleBridge (s : State) : AirMapTelemetry :=
  { _state := s, _flightID := "F1", _key := "K1", _lastHdop := 1 }

/-- A clock whose `i`-th reading is `1000 + i`. -/
def sampleClock (i : Nat) : Nat := 1000 + i

/-- A raw-GPS frame of the `common` dialect whose `eph` is 1. -/
def sampleGpsRaw : mavlink_message_t :=
  { msgid := 24, payload := List.replicate 20 0 ++ [1, 0] ++ List.replicate 8 0 }

/-- A global-position frame of the `common` dialect with `lat = 1`, `lon = 2`,
`alt = 3`, `relative_alt = 4`, `vx = 5`, `vy = 6`, `vz = 7`. -/
def samplePosition : mavlink_message_t :=
  { msgid := 33
    payload := [0, 0, 0, 0, 1, 0, 0, 0, 2, 0, 0, 0, 3, 0, 0, 0, 4, 0, 0, 0,
                5, 0, 6, 0, 7, 0, 0, 0] }

/-! ## Construction, destruction and executions -/

/-- Modelled from the spec: the member initialisers of `AirMapTelemetry.h`,
which is not among the sources. A newly constructed bridge is Idle with an
empty flight id and an empty session key; the initial HDOP (the "default") is
the parameter `defaultHdop`. The constructor body itself is empty. -/
def AirMapTelemetry.init (defaultHdop : ℚ) : AirMapTelemetry :=
  { _state := State.Idle, _flightID := "", _key := "", _lastHdop := defaultHdop }

/-- The object together with the liveness of its `_instance`, which the weak
pointer `isAlive` captured by each completion lambda observes. -/
structure Instance where
  alive : Bool
  fields : AirMapTelemetry
  deriving DecidableEq

/-- Destruction of the object: `_instance` is released, so every later
`isAlive.lock()` fails. -/
def Instance.destroy (o : Instance) : Instance := { o with alive := false }

/-- Delivery of a start-session result to the completion lambda registered by
`startTelemetryStream`. -/
def Instance.deliverStart (result : Except Error Response) (o : Instance) :
    Instance × List Effect :=
  let r := AirMapTelemetry.start_flight_communications_callback o.alive result o.fields
  ({ o with fields := r.1 }, r.2)

/-- Delivery of an end-session result to the completion lambda registered by
`stopTelemetryStream`. -/
def Instance.deliverEnd (result : Except Error Unit) (o : Instance) :
    Instance × List Effect :=
  let r := AirMapTelemetry.end_flight_communications_callback o.alive result o.fields
  ({ o with fields := r.1 }, r.2)

/-- What can happen to a live bridge on its event loop: a call of one of the
three public slots, or the delivery of a result to one of the two completion
lambdas. -/
inductive Op where
  | startTelemetryStream (flightID : String)
  | stopTelemetryStream
  | vehicleMavlinkMessageReceived (clock : Nat → Nat) (message : mavlink_message_t)
  | startResult (result : Except Error Response)
  | endResult (result : Except Error Unit)

/-- One event on a live bridge. -/
def step (lib : Mavlink) (shared : AirMapSharedState) (op : Op) (self : AirMapTelemetry) :
    AirMapTelemetry × List Effect :=
  match op with
  | Op.startTelemetryStream flightID => self.startTelemetryStream shared flightID
  | Op.stopTelemetryStream => self.stopTelemetryStream shared
  | Op.vehicleMavlinkMessageReceived clock message =>
    self.vehicleMavlinkMessageReceived lib clock message
  | Op.startResult result => self.start_flight_communications_callback true result
  | Op.endResult result => self.end_flight_communications_callback true result

/-- A sequence of events, one after the other; the effects are concatenated in
order. -/
def run (lib : Mavlink) (shared : AirMapSharedState) :
    List Op → AirMapTelemetry → AirMapTelemetry × List Effect
  | [], self => (self, [])
  | op :: ops, self =>
    ((run lib shared ops (step lib shared op self).1).1,
     (step lib shared op self).2 ++ (run lib shared ops (step lib shared op self).1).2)

/-- The documented edges of the state machine, each with the event that takes
it. -/
def documentedEdge : Op → State → State → Bool
  | Op.startTelemetryStream _, State.Idle, State.StartCommunication => true
  | Op.startResult (Except.ok _), State.StartCommunication, State.Streaming => true
  | Op.startResult (Except.error _), State.StartCommunication, State.Idle => true
  | Op.stopTelemetryStream, State.StartCommunication, State.EndCommunication => true
  | Op.stopTelemetryStream, State.Streaming, State.EndCommunication => true
  | Op.endResult _, State.EndCommunication, State.Idle => true
  | _, _, _ => false

/-- The HDOP value derived from the `eph` of a raw-GPS frame: 1 for the
sentinel, else the binary32 quotient by `100.f`. -/
def derivedHdop (eph : Nat) : ℚ :=
  if eph = UINT16_MAX then 1 else floatDiv eph 100

/-- The `eph` of the last raw-GPS frame of the events `ops` that arrived while
the bridge, started in `self`, was Streaming; `acc` when there is none. -/
def lastGpsWhileStreaming (lib : Mavlink) (shared : AirMapSharedState) :
    List Op → AirMapTelemetry → Option Nat → Option Nat
  | [], _, acc => acc
  | op :: ops, self, acc =>
    lastGpsWhileStreaming lib shared ops (step lib shared op self).1
      (match op with
       | Op.vehicleMavlinkMessageReceived _ message =>
         if message.msgid = lib.MAVLINK_MSG_ID_GPS_RAW_INT ∧ self._state = State.Streaming then
           some (lib.mavlink_msg_gps_raw_int_decode message).eph
         else acc
       | _ => acc)

/-- The `eph` of the last raw-GPS frame of the events `ops`, whatever the
state it arrived in; `acc` when there is none. -/
def lastGpsObserved (lib : Mavlink) : List Op → Option Nat → Option Nat
  | [], acc => acc
  | op :: ops, acc =>
    lastGpsObserved lib ops
      (match op with
       | Op.vehicleMavlinkMessageReceived _ message =>
         if message.msgid = lib.MAVLINK_MSG_ID_GPS_RAW_INT then
           some (lib.mavlink_msg_gps_raw_int_decode message).eph
         else acc
       | _ => acc)

/-- The HDOP that goes with the `eph` of the last relevant raw-GPS frame, the
default when there is none. -/
def hdopAfter (defaultHdop : ℚ) : Option Nat → ℚ
  | none => defaultHdop
  | some eph => derivedHdop eph

/-! ## More sample inputs -/

/-- A raw-GPS frame of the `common` dialect whose `eph` is `e` (`e < 256`). -/
def sampleGpsRawEph (e : Nat) : mavlink_message_t :=
  { msgid := 24, payload := List.replicate 20 0 ++ [e, 0] ++ List.replicate 8 0 }

/-- A global-position frame of the `common` dialect with `lat = 377749000` and
every other field zero. -/
def samplePositionSF : mavlink_message_t :=
  { msgid := 33
    payload := [0, 0, 0, 0, 8, 254, 131, 22, 0, 0, 0, 0, 0, 0, 0, 0, 0, 0, 0, 0,
                0, 0, 0, 0, 0, 0, 0, 0] }

/-- A frame of a kind the bridge does not handle (id 0, a heartbeat). -/
def sampleHeartbeat : mavlink_message_t :=
  { msgid := 0, payload := [0, 0, 0, 0, 0, 0, 0, 0, 3] }

/-- A first session for flight `"F1"` in which a raw-GPS frame with `eph = 200`
arrives, its end, a raw-GPS frame with `eph = 50` arriving while the bridge
is Idle, and the start of a second session for flight `"F2"`. -/
def sampleRestartOps : List Op :=
  [Op.startTelemetryStream "F1", Op.startResult (Except.ok { key := "K1" }),
   Op.vehicleMavlinkMessageReceived sampleClock (sampleGpsRawEph 200),
   Op.stopTelemetryStream, Op.endResult (Except.ok ()),
   Op.vehicleMavlinkMessageReceived sampleClock (sampleGpsRawEph 50),
   Op.startTelemetryStream "F2", Op.startResult (Except.ok { key := "K2" })]

/-! ## Accuracy of the floating-point operations -/

/-- Rounding a quotient to an integer moves it by at most one half. -/
theorem divRoundHalfEven_err (a : Int) (b : Nat) (hb : 0 < b) :
    |((divRoundHalfEven a b : Int) : ℚ) - (a : ℚ) / (b : ℚ)| ≤ 1 / 2 := by
  have hbq : (0 : ℚ) < (b : ℚ) := by exact_mod_cast hb
  have hbz : (0 : Int) < (b : Int) := by exact_mod_cast hb
  have hdiv : (b : Int) * (a / (b : Int)) + a % (b : Int) = a := Int.ediv_add_emod a b
  have hr0 : 0 ≤ a % (b : Int) := Int.emod_nonneg _ (ne_of_gt hbz)
  have hr1 : a % (b : Int) < b := Int.emod_lt_of_pos _ hbz
  have hdivq : (b : ℚ) * ((a / (b : Int) : Int) : ℚ) + ((a % (b : Int) : Int) : ℚ) = (a : ℚ) := by
    exact_mod_cast hdiv
  have hq : (a : ℚ) / (b : ℚ) =
      ((a / (b : Int) : Int) : ℚ) + ((a % (b : Int) : Int) : ℚ) / (b : ℚ) := by
    rw [← hdivq]; field_simp; ring
  have hr0q : (0 : ℚ) ≤ ((a % (b : Int) : Int) : ℚ) := by exact_mod_cast hr0
  have hr1q : ((a % (b : Int) : Int) : ℚ) < (b : ℚ) := by exact_mod_cast hr1
  rw [hq]
  unfold divRoundHalfEven
  simp only
  split_ifs with h1 h2 h3
  · have h1q : 2 * ((a % (b : Int) : Int) : ℚ) < (b : ℚ) := by exact_mod_cast h1
    have : ((a % (b : Int) : Int) : ℚ) / (b : ℚ) < 1 / 2 := by
      rw [div_lt_iff₀ hbq]; linarith
    have h0 : 0 ≤ ((a % (b : Int) : Int) : ℚ) / (b : ℚ) := div_nonneg hr0q hbq.le
    rw [abs_le]; constructor <;> linarith
  · have h2q : (b : ℚ) < 2 * ((a % (b : Int) : Int) : ℚ) := by exact_mod_cast h2
    have : 1 / 2 < ((a % (b : Int) : Int) : ℚ) / (b : ℚ) := by
      rw [lt_div_iff₀ hbq]; linarith
    have h0 : ((a % (b : Int) : Int) : ℚ) / (b : ℚ) < 1 := by
      rw [div_lt_iff₀ hbq]; linarith
    push_cast
    rw [abs_le]; constructor <;> linarith
  · have he : 2 * (a % (b : Int)) = b := by omega
    have heq : 2 * ((a % (b : Int) : Int) : ℚ) = (b : ℚ) := by exact_mod_cast he
    have : ((a % (b : Int) : Int) : ℚ) / (b : ℚ) = 1 / 2 := by
      rw [div_eq_iff hbq.ne']; linarith
    rw [this, abs_le]; constructor <;> linarith
  · have he : 2 * (a % (b : Int)) = b := by omega
    have heq : 2 * ((a % (b : Int) : Int) : ℚ) = (b : ℚ) := by exact_mod_cast he
    have : ((a % (b : Int) : Int) : ℚ) / (b : ℚ) = 1 / 2 := by
      rw [div_eq_iff hbq.ne']; linarith
    push_cast
    rw [this, abs_le]; constructor <;> linarith

/-- With enough fuel, `log2Fuel` brackets `n` between consecutive powers of two. -/
theorem log2Fuel_spec : ∀ (fuel n : Nat), n ≤ fuel → 0 < n →
    2 ^ log2Fuel fuel n ≤ n ∧ n < 2 ^ (log2Fuel fuel n + 1)
  | 0, n, h, hn => by omega
  | fuel + 1, n, h, hn => by
    unfold log2Fuel
    split_ifs with h2
    · have ih := log2Fuel_spec fuel (n / 2) (by omega) (by omega)
      rw [pow_succ] at ih
      rw [pow_succ, pow_succ, pow_succ]
      generalize 2 ^ log2Fuel fuel (n / 2) = t at ih ⊢
      omega
    · simp; omega


/-- The value of `floorLog2` brackets `a / b` between consecutive powers of two. -/
theorem floorLog2_spec (a b : Nat) (ha : 0 < a) (hb : 0 < b) :
    (2 : ℚ) ^ floorLog2 a b ≤ (a : ℚ) / (b : ℚ) ∧
    (a : ℚ) / (b : ℚ) < (2 : ℚ) ^ (floorLog2 a b + 1) := by
  obtain ⟨ha1, ha2⟩ := log2Fuel_spec a a le_rfl ha
  obtain ⟨hb1, hb2⟩ := log2Fuel_spec b b le_rfl hb
  have haq : (0 : ℚ) < (a : ℚ) := by exact_mod_cast ha
  have hbq : (0 : ℚ) < (b : ℚ) := by exact_mod_cast hb
  have hA : (0 : ℚ) < (2 : ℚ) ^ log2Fuel a a := by positivity
  have hB : (0 : ℚ) < (2 : ℚ) ^ log2Fuel b b := by positivity
  have ha1q : (2 : ℚ) ^ log2Fuel a a ≤ (a : ℚ) := by exact_mod_cast ha1
  have ha2q : (a : ℚ) < 2 * (2 : ℚ) ^ log2Fuel a a := by
    have : (a : ℚ) < (2 : ℚ) ^ (log2Fuel a a + 1) := by exact_mod_cast ha2
    rw [pow_succ] at this; linarith
  have hb1q : (2 : ℚ) ^ log2Fuel b b ≤ (b : ℚ) := by exact_mod_cast hb1
  have hb2q : (b : ℚ) < 2 * (2 : ℚ) ^ log2Fuel b b := by
    have : (b : ℚ) < (2 : ℚ) ^ (log2Fuel b b + 1) := by exact_mod_cast hb2
    rw [pow_succ] at this; linarith
  -- the exponent estimate, as a quotient of natural powers
  have he : (2 : ℚ) ^ ((log2Fuel a a : Int) - (log2Fuel b b : Int)) =
      (2 : ℚ) ^ log2Fuel a a / (2 : ℚ) ^ log2Fuel b b := by
    rw [zpow_sub₀ (by norm_num : (2 : ℚ) ≠ 0), zpow_natCast, zpow_natCast]
  have hem : (2 : ℚ) ^ ((log2Fuel a a : Int) - (log2Fuel b b : Int) - 1) =
      (2 : ℚ) ^ log2Fuel a a / (2 : ℚ) ^ log2Fuel b b / 2 := by
    rw [zpow_sub₀ (by norm_num : (2 : ℚ) ≠ 0), he]; simp
  have hep : (2 : ℚ) ^ ((log2Fuel a a : Int) - (log2Fuel b b : Int) + 1) =
      (2 : ℚ) ^ log2Fuel a a / (2 : ℚ) ^ log2Fuel b b * 2 := by
    rw [zpow_add₀ (by norm_num : (2 : ℚ) ≠ 0), he]; simp
  -- both tests of the definition compare `b * 2 ^ la` with `a * 2 ^ lb`
  have hcond : floorLog2 a b =
      if (b : ℚ) * (2 : ℚ) ^ log2Fuel a a ≤ (a : ℚ) * (2 : ℚ) ^ log2Fuel b b then
        (log2Fuel a a : Int) - (log2Fuel b b : Int)
      else (log2Fuel a a : Int) - (log2Fuel b b : Int) - 1 := by
    unfold floorLog2
    simp only
    by_cases hle : (0 : Int) ≤ (log2Fuel a a : Int) - (log2Fuel b b : Int)
    · have hk : log2Fuel b b ≤ log2Fuel a a := by omega
      have htn : ((log2Fuel a a : Int) - (log2Fuel b b : Int)).toNat =
          log2Fuel a a - log2Fuel b b := by omega
      rw [if_pos hle, htn]
      have hiff : (b * 2 ^ (log2Fuel a a - log2Fuel b b) ≤ a) ↔
          ((b : ℚ) * (2 : ℚ) ^ log2Fuel a a ≤ (a : ℚ) * (2 : ℚ) ^ log2Fuel b b) := by
        have hsplit : (2 : ℚ) ^ log2Fuel a a =
            (2 : ℚ) ^ (log2Fuel a a - log2Fuel b b) * (2 : ℚ) ^ log2Fuel b b := by
          rw [← pow_add, Nat.sub_add_cancel hk]
        rw [hsplit, ← mul_assoc, mul_le_mul_right hB]
        exact_mod_cast Iff.rfl
      simp only [hiff]
    · have hk : log2Fuel a a ≤ log2Fuel b b := by omega
      have htn : (-((log2Fuel a a : Int) - (log2Fuel b b : Int))).toNat =
          log2Fuel b b - log2Fuel a a := by omega
      rw [if_neg hle, htn]
      have hiff : (b ≤ a * 2 ^ (log2Fuel b b - log2Fuel a a)) ↔
          ((b : ℚ) * (2 : ℚ) ^ log2Fuel a a ≤ (a : ℚ) * (2 : ℚ) ^ log2Fuel b b) := by
        have hsplit : (2 : ℚ) ^ log2Fuel b b =
            (2 : ℚ) ^ (log2Fuel b b - log2Fuel a a) * (2 : ℚ) ^ log2Fuel a a := by
          rw [← pow_add, Nat.sub_add_cancel hk]
        rw [hsplit, ← mul_assoc, mul_le_mul_right hA]
        exact_mod_cast Iff.rfl
      simp only [hiff]
  rw [hcond]
  split_ifs with hc
  · rw [he, hep]
    constructor
    · rw [div_le_div_iff₀ hB hbq]; linarith
    · rw [div_mul_eq_mul_div, div_lt_div_iff₀ hbq hB]
      nlinarith
  · push_neg at hc
    rw [hem, sub_add_cancel, he]
    constructor
    · rw [div_div, div_le_div_iff₀ (by positivity) hbq]
      nlinarith
    · rw [div_lt_div_iff₀ hbq hB]; linarith


/-- The result of `roundSig` is within half a unit in the last place of the
exact quotient. -/
theorem roundSig_abs_err (p : Nat) (emin : Int) (a : Int) (b : Nat) (hb : 0 < b) :
    |sigValue (roundSig p emin a b) - (a : ℚ) / (b : ℚ)| ≤
      (2 : ℚ) ^ (roundSig p emin a b).2 / 2 := by
  have hbq : (0 : ℚ) < (b : ℚ) := by exact_mod_cast hb
  unfold roundSig
  by_cases ha : a = 0
  · simp [ha, sigValue]
  · rw [if_neg ha]
    simp only [sigValue]
    generalize (if floorLog2 a.natAbs b < emin then emin else floorLog2 a.natAbs b) -
      ((p : Int) - 1) = s
    have h2s : (0 : ℚ) < (2 : ℚ) ^ s := by positivity
    by_cases hs : 0 ≤ s
    · rw [if_pos hs]
      have hpow : (2 : ℚ) ^ s = (2 : ℚ) ^ s.toNat := by
        rw [← zpow_natCast, Int.toNat_of_nonneg hs]
      have herr := divRoundHalfEven_err a (b * 2 ^ s.toNat) (by positivity)
      have hfac : ((divRoundHalfEven a (b * 2 ^ s.toNat) : Int) : ℚ) * (2 : ℚ) ^ s -
          (a : ℚ) / (b : ℚ) =
          (2 : ℚ) ^ s * (((divRoundHalfEven a (b * 2 ^ s.toNat) : Int) : ℚ) -
            (a : ℚ) / ((b * 2 ^ s.toNat : Nat) : ℚ)) := by
        push_cast
        rw [hpow]
        field_simp
        ring
      rw [hfac, abs_mul, abs_of_pos h2s]
      calc (2 : ℚ) ^ s * _ ≤ (2 : ℚ) ^ s * (1 / 2) :=
            mul_le_mul_of_nonneg_left herr h2s.le
        _ = (2 : ℚ) ^ s / 2 := by ring
    · rw [if_neg hs]
      have hpow : (2 : ℚ) ^ s = ((2 : ℚ) ^ (-s).toNat)⁻¹ := by
        rw [← zpow_natCast, Int.toNat_of_nonneg (by omega), zpow_neg, inv_inv]
      have herr := divRoundHalfEven_err (a * 2 ^ (-s).toNat) b hb
      have hfac : ((divRoundHalfEven (a * 2 ^ (-s).toNat) b : Int) : ℚ) * (2 : ℚ) ^ s -
          (a : ℚ) / (b : ℚ) =
          (2 : ℚ) ^ s * (((divRoundHalfEven (a * 2 ^ (-s).toNat) b : Int) : ℚ) -
            ((a * 2 ^ (-s).toNat : Int) : ℚ) / (b : ℚ)) := by
        push_cast
        rw [hpow]
        field_simp
        ring
      rw [hfac, abs_mul, abs_of_pos h2s]
      calc (2 : ℚ) ^ s * _ ≤ (2 : ℚ) ^ s * (1 / 2) :=
            mul_le_mul_of_nonneg_left herr h2s.le
        _ = (2 : ℚ) ^ s / 2 := by ring

/-- In the normal range the relative error of `roundSig` is at most `2 ^ (-p)`. -/
theorem roundSig_rel_err (p : Nat) (emin : Int) (a : Int) (b : Nat) (hb : 0 < b)
    (hn : (2 : ℚ) ^ emin ≤ |(a : ℚ) / (b : ℚ)|) :
    |sigValue (roundSig p emin a b) - (a : ℚ) / (b : ℚ)| ≤
      |(a : ℚ) / (b : ℚ)| / (2 : ℚ) ^ p := by
  have hbq : (0 : ℚ) < (b : ℚ) := by exact_mod_cast hb
  have ha : a ≠ 0 := by
    rintro rfl
    have : (0 : ℚ) < (2 : ℚ) ^ emin := by positivity
    simp at hn
    linarith
  have hna : 0 < a.natAbs := Int.natAbs_pos.mpr ha
  have habs : |(a : ℚ) / (b : ℚ)| = (a.natAbs : ℚ) / (b : ℚ) := by
    rw [abs_div, abs_of_pos hbq, Nat.cast_natAbs, Int.cast_abs]
  obtain ⟨hlo, hhi⟩ := floorLog2_spec a.natAbs b hna hb
  have hle : emin ≤ floorLog2 a.natAbs b := by
    have h1 : (2 : ℚ) ^ emin < (2 : ℚ) ^ (floorLog2 a.natAbs b + 1) := by
      rw [habs] at hn; exact lt_of_le_of_lt hn hhi
    have := (zpow_lt_zpow_iff_right₀ (by norm_num : (1 : ℚ) < 2)).mp h1
    omega
  have hexp : (roundSig p emin a b).2 = floorLog2 a.natAbs b - ((p : Int) - 1) := by
    unfold roundSig
    rw [if_neg ha]
    simp only
    rw [if_neg (by omega)]
  refine le_trans (roundSig_abs_err p emin a b hb) ?_
  rw [hexp, habs]
  have h2 : (2 : ℚ) ^ (floorLog2 a.natAbs b - ((p : Int) - 1)) / 2 =
      (2 : ℚ) ^ floorLog2 a.natAbs b / (2 : ℚ) ^ p := by
    rw [zpow_sub₀ (by norm_num : (2 : ℚ) ≠ 0), zpow_sub₀ (by norm_num : (2 : ℚ) ≠ 0),
      zpow_natCast]
    field_simp
    ring
  rw [h2]
  exact div_le_div_of_nonneg_right hlo (by positivity)


/-- The quotient of an integer by a positive integer of at most `2 ^ k` is
zero or in the normal range of a format whose least exponent is `-k`. -/
theorem roundSig_int_rel_err (p k : Nat) (a : Int) (b : Nat) (hb : 0 < b)
    (hk : b ≤ 2 ^ k) :
    |sigValue (roundSig p (-(k : Int)) a b) - (a : ℚ) / (b : ℚ)| ≤
      |(a : ℚ) / (b : ℚ)| / (2 : ℚ) ^ p := by
  have hbq : (0 : ℚ) < (b : ℚ) := by exact_mod_cast hb
  by_cases ha : a = 0
  · subst ha
    simp [roundSig, sigValue]
  · apply roundSig_rel_err p _ a b hb
    have h1 : (1 : ℚ) ≤ |(a : ℚ)| := by
      have : (1 : Int) ≤ |a| := Int.one_le_abs ha
      exact_mod_cast this
    have hkq : (b : ℚ) ≤ (2 : ℚ) ^ k := by exact_mod_cast hk
    rw [zpow_neg, zpow_natCast, abs_div, abs_of_pos hbq, inv_eq_one_div,
      div_le_div_iff₀ (by positivity) hbq]
    calc (1 : ℚ) * (b : ℚ) ≤ 1 * (2 : ℚ) ^ k := by linarith
      _ ≤ |(a : ℚ)| * (2 : ℚ) ^ k := by
        apply mul_le_mul_of_nonneg_right h1 (by positivity)

/-- Relative error of a binary32 division of integers. -/
theorem floatDiv_rel_err (a : Int) (b : Nat) (hb : 0 < b) (hk : b ≤ 2 ^ 126) :
    |floatDiv a b - (a : ℚ) / (b : ℚ)| ≤ |(a : ℚ) / (b : ℚ)| / 2 ^ 24 := by
  have := roundSig_int_rel_err 24 126 a b hb hk
  simpa [floatDiv] using this

/-- Relative error of a binary64 division of integers. -/
theorem doubleDiv_rel_err (a : Int) (b : Nat) (hb : 0 < b) (hk : b ≤ 2 ^ 1022) :
    |doubleDiv a b - (a : ℚ) / (b : ℚ)| ≤ |(a : ℚ) / (b : ℚ)| / 2 ^ 53 := by
  have := roundSig_int_rel_err 53 1022 a b hb hk
  simpa [doubleDiv] using this

/-- Rounding an integer leaves it as it is. -/
theorem divRoundHalfEven_one (x : Int) : divRoundHalfEven x 1 = x := by
  simp [divRoundHalfEven]

/-- The rounding of an integer is an integer, which `sigInt` reads off. -/
theorem sigInt_roundSig_one (p : Nat) (emin : Int) (n : Int) :
    ((sigInt (roundSig p emin n 1) : Int) : ℚ) = sigValue (roundSig p emin n 1) := by
  unfold roundSig
  by_cases ha : n = 0
  · simp [ha, sigInt, sigValue]
  · rw [if_neg ha]
    simp only [sigInt, sigValue]
    generalize (if floorLog2 n.natAbs 1 < emin then emin else floorLog2 n.natAbs 1) -
      ((p : Int) - 1) = s
    by_cases hs : 0 ≤ s
    · rw [if_pos hs, if_pos hs]
      push_cast
      rw [← zpow_natCast (2 : ℚ) s.toNat, Int.toNat_of_nonneg hs]
    · rw [if_neg hs, if_neg hs, divRoundHalfEven_one]
      have hpos : (2 : Int) ^ (-s).toNat ≠ 0 := by positivity
      rw [Int.mul_ediv_cancel _ hpos]
      have hpow : (2 : ℚ) ^ s = ((2 : ℚ) ^ (-s).toNat)⁻¹ := by
        rw [← zpow_natCast, Int.toNat_of_nonneg (by omega), zpow_neg, inv_inv]
      rw [hpow]
      push_cast
      field_simp

/-- Relative error of the conversion of an integer to binary32. -/
theorem floatOfInt_rel_err (n : Int) :
    |((floatOfInt n : Int) : ℚ) - (n : ℚ)| ≤ |(n : ℚ)| / 2 ^ 24 := by
  have h := roundSig_int_rel_err 24 126 n 1 (by norm_num) (by norm_num)
  rw [floatOfInt, sigInt_roundSig_one]
  simpa using h

/-- Relative error of converting an integer to binary32 and dividing it, in
binary32, by a positive integer. -/
theorem floatDiv_floatOfInt_rel_err (n : Int) (b : Nat) (hb : 0 < b) (hk : b ≤ 2 ^ 126) :
    |floatDiv (floatOfInt n) b - (n : ℚ) / (b : ℚ)| ≤ |(n : ℚ) / (b : ℚ)| / 2 ^ 22 := by
  have hbq : (0 : ℚ) < (b : ℚ) := by exact_mod_cast hb
  have h1 := floatDiv_rel_err (floatOfInt n) b hb hk
  have h2 := floatOfInt_rel_err n
  have h3 : |((floatOfInt n : Int) : ℚ)| ≤ |(n : ℚ)| + |(n : ℚ)| / 2 ^ 24 := by
    have := abs_sub_abs_le_abs_sub ((floatOfInt n : Int) : ℚ) (n : ℚ)
    linarith
  have hn0 : 0 ≤ |(n : ℚ)| := abs_nonneg _
  rw [abs_div, abs_of_pos hbq] at h1 ⊢
  have h4 : |((floatOfInt n : Int) : ℚ) / (b : ℚ) - (n : ℚ) / (b : ℚ)| ≤
      |(n : ℚ)| / 2 ^ 24 / (b : ℚ) := by
    rw [← sub_div, abs_div, abs_of_pos hbq]
    exact div_le_div_of_nonneg_right h2 hbq.le
  have h5 : |floatDiv (floatOfInt n) b - (n : ℚ) / (b : ℚ)| ≤
      |floatDiv (floatOfInt n) b - ((floatOfInt n : Int) : ℚ) / (b : ℚ)| +
      |((floatOfInt n : Int) : ℚ) / (b : ℚ) - (n : ℚ) / (b : ℚ)| := abs_sub_le _ _ _
  have h6 : |((floatOfInt n : Int) : ℚ)| / (b : ℚ) / 2 ^ 24 ≤
      (|(n : ℚ)| + |(n : ℚ)| / 2 ^ 24) / (b : ℚ) / 2 ^ 24 := by
    apply div_le_div_of_nonneg_right _ (by positivity)
    exact div_le_div_of_nonneg_right h3 hbq.le
  have h7 : (|(n : ℚ)| + |(n : ℚ)| / 2 ^ 24) / (b : ℚ) / 2 ^ 24 + |(n : ℚ)| / 2 ^ 24 / (b : ℚ) ≤
      |(n : ℚ)| / (b : ℚ) / 2 ^ 22 := by
    have hx : 0 ≤ |(n : ℚ)| / (b : ℚ) := div_nonneg hn0 hbq.le
    have e1 : (|(n : ℚ)| + |(n : ℚ)| / 2 ^ 24) / (b : ℚ) / 2 ^ 24 + |(n : ℚ)| / 2 ^ 24 / (b : ℚ) =
        |(n : ℚ)| / (b : ℚ) * ((1 + 1 / 2 ^ 24) / 2 ^ 24 + 1 / 2 ^ 24) := by
      field_simp; ring
    have e2 : |(n : ℚ)| / (b : ℚ) / 2 ^ 22 = |(n : ℚ)| / (b : ℚ) * (1 / 2 ^ 22) := by ring
    rw [e1, e2]
    apply mul_le_mul_of_nonneg_left _ hx
    norm_num
  linarith

/-! ## Start and stop outside their source state -/

open AirMapTelemetry

/-- C1: in every state other than Idle, `startTelemetryStream` returns the
object unchanged (state, flight id, session key and HDOP), and all it does to
the outside is log one warning: no start-session request is issued. -/
theorem startTelemetryStream_not_idle (shared : AirMapSharedState) (flightID : String)
    (self : AirMapTelemetry) (h : self._state ≠ State.Idle) :
    (startTelemetryStream shared flightID self).1 = self ∧
    (startTelemetryStream shared flightID self).2 =
      [Effect.qCWarning "Not starting telemetry: not in idle state:" self._state] ∧
    ∀ e ∈ (startTelemetryStream shared flightID self).2, e.isStartRequest = false := by
  simp [startTelemetryStream, h, Effect.isStartRequest]

/-- C1 at a Streaming bridge asked to start flight `"F2"`. -/
theorem startTelemetryStream_not_idle_witness :
    (sampleBridge State.Streaming)._state ≠ State.Idle ∧
    (startTelemetryStream sampleShared "F2" (sampleBridge State.Streaming)).1 =
      sampleBridge State.Streaming :=
  ⟨by decide,
   (startTelemetryStream_not_idle sampleShared "F2" (sampleBridge State.Streaming)
      (by decide)).1⟩

/-- C2: in state Idle, `stopTelemetryStream` returns the object unchanged and
does nothing to the outside; in particular it issues no end-session request. -/
theorem stopTelemetryStream_idle (shared : AirMapSharedState) (self : AirMapTelemetry)
    (h : self._state = State.Idle) :
    stopTelemetryStream shared self = (self, []) := by
  simp [stopTelemetryStream, h]

/-- C2 at an Idle bridge. -/
theorem stopTelemetryStream_idle_witness :
    (sampleBridge State.Idle)._state = State.Idle ∧
    stopTelemetryStream sampleShared (sampleBridge State.Idle) =
      (sampleBridge State.Idle, []) :=
  ⟨rfl, stopTelemetryStream_idle sampleShared (sampleBridge State.Idle) rfl⟩

/-! ## The start-session completion, success -/

/-- C3: a start-session success carrying key `k`, delivered to a live bridge.
If the state is StartCommunication, the state becomes Streaming and the key
becomes `k`, flight id and HDOP stay, nothing is emitted. In any other state
(EndCommunication, Idle, Streaming) the object is returned unchanged and
nothing is emitted. -/
theorem start_callback_success (self : AirMapTelemetry) (k : String) :
    (self._state = State.StartCommunication →
      start_flight_communications_callback true (Except.ok { key := k }) self =
        ({ _state := State.Streaming, _flightID := self._flightID, _key := k,
           _lastHdop := self._lastHdop }, [])) ∧
    (self._state ≠ State.StartCommunication →
      start_flight_communications_callback true (Except.ok { key := k }) self =
        (self, [])) := by
  constructor
  · intro h
    simp [start_flight_communications_callback, h]
  · intro h
    simp [start_flight_communications_callback, h]

/-- C3 at a bridge that was stopped while the request was pending: the late
success leaves it in EndCommunication with its old key. -/
theorem start_callback_success_witness :
    start_flight_communications_callback true (Except.ok { key := "K2" })
        (sampleBridge State.EndCommunication) =
      (sampleBridge State.EndCommunication, []) :=
  (start_callback_success (sampleBridge State.EndCommunication) "K2").2 (by decide)

/-! ## Messages outside Streaming -/

/-- C4: outside Streaming, `vehicleMavlinkMessageReceived` returns the object
unchanged, HDOP included, and does nothing to the outside, whatever the
message: no telemetry update is submitted. -/
theorem message_not_streaming (lib : Mavlink) (clock : Nat → Nat)
    (message : mavlink_message_t) (self : AirMapTelemetry)
    (h : self._state ≠ State.Streaming) :
    vehicleMavlinkMessageReceived lib clock message self = (self, []) := by
  simp only [vehicleMavlinkMessageReceived, _handleGlobalPositionInt, _handleGPSRawInt,
    isTelemetryStreaming]
  have hb : (self._state == State.Streaming) = false := by simpa using h
  simp [hb]

/-- C4 at a bridge in EndCommunication receiving a raw-GPS frame. -/
theorem message_not_streaming_witness :
    (sampleBridge State.EndCommunication)._state ≠ State.Streaming ∧
    vehicleMavlinkMessageReceived commonDialect sampleClock { msgid := 24, payload := [] }
        (sampleBridge State.EndCommunication) =
      (sampleBridge State.EndCommunication, []) :=
  ⟨by decide,
   message_not_streaming commonDialect sampleClock { msgid := 24, payload := [] }
     (sampleBridge State.EndCommunication) (by decide)⟩

/-! ## Messages while Streaming -/

/-- Outcome of a raw-GPS frame while Streaming. -/
theorem gps_raw_streaming_eq (lib : Mavlink) (clock : Nat → Nat)
    (message : mavlink_message_t) (self : AirMapTelemetry)
    (hid : message.msgid = lib.MAVLINK_MSG_ID_GPS_RAW_INT)
    (hs : self._state = State.Streaming) :
    vehicleMavlinkMessageReceived lib clock message self =
      ({ self with
          _lastHdop :=
            if (lib.mavlink_msg_gps_raw_int_decode message).eph = 65535 then 1
            else floatDiv (lib.mavlink_msg_gps_raw_int_decode message).eph 100 }, []) := by
  have hne : lib.MAVLINK_MSG_ID_GPS_RAW_INT ≠ lib.MAVLINK_MSG_ID_GLOBAL_POSITION_INT :=
    fun h => lib.case_labels_distinct h.symm
  simp only [vehicleMavlinkMessageReceived, _handleGPSRawInt, isTelemetryStreaming, hid, hs,
    UINT16_MAX]
  simp only [hne, if_false]
  split_ifs <;> simp_all

/-- Outcome of a global-position frame while Streaming. -/
theorem global_position_streaming_eq (lib : Mavlink) (clock : Nat → Nat)
    (message : mavlink_message_t) (self : AirMapTelemetry)
    (hid : message.msgid = lib.MAVLINK_MSG_ID_GLOBAL_POSITION_INT)
    (hs : self._state = State.Streaming) :
    vehicleMavlinkMessageReceived lib clock message self =
      (self, [Effect.submit_updates { id := self._flightID } self._key
        [Update.position
           { timestamp := clock 0
             latitude :=
               doubleDiv (lib.mavlink_msg_global_position_int_decode message).lat 10000000
             longitude :=
               doubleDiv (lib.mavlink_msg_global_position_int_decode message).lon 10000000
             altitude_msl :=
               floatDiv (floatOfInt (lib.mavlink_msg_global_position_int_decode message).alt)
                 1000
             altitude_gl :=
               floatDiv
                 (floatOfInt (lib.mavlink_msg_global_position_int_decode message).relative_alt)
                 1000
             horizontal_accuracy := self._lastHdop },
         Update.speed
           { timestamp := clock 1
             velocity_x := floatDiv (lib.mavlink_msg_global_position_int_decode message).vx 100
             velocity_y := floatDiv (lib.mavlink_msg_global_position_int_decode message).vy 100
             velocity_z :=
               floatDiv (lib.mavlink_msg_global_position_int_decode message).vz 100 }]]) := by
  simp [vehicleMavlinkMessageReceived, _handleGlobalPositionInt, isTelemetryStreaming, hid, hs]

/-- What the `common` dialect decodes from `samplePosition`. -/
theorem samplePosition_decode :
    commonDialect.mavlink_msg_global_position_int_decode samplePosition =
      { lat := 1, lon := 2, alt := 3, relative_alt := 4, vx := 5, vy := 6, vz := 7 } := by
  decide

/-- What the `common` dialect decodes from `sampleGpsRaw`. -/
theorem sampleGpsRaw_decode :
    commonDialect.mavlink_msg_gps_raw_int_decode sampleGpsRaw = { eph := 1 } := by
  decide

set_option maxRecDepth 100000 in
/-- The binary64 quotient `1 / 1e7`. -/
theorem doubleDiv_one_1e7 :
    doubleDiv 1 10000000 = 944473296573929 / 9444732965739290427392 := by
  have hr : roundSig 53 (-1022) 1 10000000 = (7555786372591432, -76) := by decide
  simp only [doubleDiv, sigValue, hr]
  norm_num

/-- The binary32 quotient `1 / 100.f`. -/
theorem floatDiv_one_100 : floatDiv 1 100 = 5368709 / 536870912 := by
  have hr : roundSig 24 (-126) 1 100 = (10737418, -30) := by decide
  simp only [floatDiv, sigValue, hr]
  norm_num

/-- C5, as stated, fails: for the global-position frame with raw latitude 1
received while Streaming, the one submitted batch is `[Position, Speed]`, and
the latitude of its Position is the binary64 number
`944473296573929 / 2 ^ 73`, which is not the rational `1 / 10 ^ 7`. -/
theorem global_position_latitude_not_exact :
    (commonDialect.mavlink_msg_global_position_int_decode samplePosition).lat = 1 ∧
    ∃ (pos : Position) (spd : Speed),
      (vehicleMavlinkMessageReceived commonDialect sampleClock samplePosition
          (sampleBridge State.Streaming)).2 =
        [Effect.submit_updates { id := "F1" } "K1" [Update.position pos, Update.speed spd]] ∧
      pos.latitude = 944473296573929 / 9444732965739290427392 ∧
      pos.latitude ≠ 1 / 10 ^ 7 := by
  refine ⟨by rw [samplePosition_decode], ?_⟩
  rw [global_position_streaming_eq commonDialect sampleClock samplePosition _ rfl rfl,
    samplePosition_decode]
  refine ⟨_, _, rfl, ?_, ?_⟩
  · exact doubleDiv_one_1e7
  · show doubleDiv 1 10000000 ≠ 1 / 10 ^ 7
    rw [doubleDiv_one_1e7]
    norm_num

/-- C5, amended: a global-position frame received while Streaming leaves the
object unchanged and causes exactly one effect, one `submit_updates` call
tagged with the stored flight id and the stored session key, whose update
list is `[Position, Speed]` in that order. The values are floating-point
quotients, not exact rationals: latitude and longitude are the binary64
quotients of the raw values by `1e7`, within relative error `2 ^ (-53)` of
`raw / 10 ^ 7`; the two altitudes are the binary32 quotients by `1000.f` of
the raw values converted to binary32, within relative error `2 ^ (-22)` of
`raw / 1000`; the three velocities are the binary32 quotients of the raw
values by `100.f`, within relative error `2 ^ (-24)` of `raw / 100`; the
Position HDOP is the stored `_lastHdop`. -/
theorem global_position_streaming (lib : Mavlink) (clock : Nat → Nat)
    (message : mavlink_message_t) (self : AirMapTelemetry)
    (hid : message.msgid = lib.MAVLINK_MSG_ID_GLOBAL_POSITION_INT)
    (hs : self._state = State.Streaming) :
    (vehicleMavlinkMessageReceived lib clock message self).1 = self ∧
    ∃ (pos : Position) (spd : Speed),
      (vehicleMavlinkMessageReceived lib clock message self).2 =
        [Effect.submit_updates { id := self._flightID } self._key
          [Update.position pos, Update.speed spd]] ∧
      pos.latitude =
        doubleDiv (lib.mavlink_msg_global_position_int_decode message).lat 10000000 ∧
      pos.longitude =
        doubleDiv (lib.mavlink_msg_global_position_int_decode message).lon 10000000 ∧
      pos.altitude_msl =
        floatDiv (floatOfInt (lib.mavlink_msg_global_position_int_decode message).alt) 1000 ∧
      pos.altitude_gl =
        floatDiv (floatOfInt (lib.mavlink_msg_global_position_int_decode message).relative_alt)
          1000 ∧
      pos.horizontal_accuracy = self._lastHdop ∧
      spd.velocity_x = floatDiv (lib.mavlink_msg_global_position_int_decode message).vx 100 ∧
      spd.velocity_y = floatDiv (lib.mavlink_msg_global_position_int_decode message).vy 100 ∧
      spd.velocity_z = floatDiv (lib.mavlink_msg_global_position_int_decode message).vz 100 ∧
      |pos.latitude - ((lib.mavlink_msg_global_position_int_decode message).lat : ℚ) / 10 ^ 7| ≤
        |((lib.mavlink_msg_global_position_int_decode message).lat : ℚ) / 10 ^ 7| / 2 ^ 53 ∧
      |pos.longitude - ((lib.mavlink_msg_global_position_int_decode message).lon : ℚ) / 10 ^ 7| ≤
        |((lib.mavlink_msg_global_position_int_decode message).lon : ℚ) / 10 ^ 7| / 2 ^ 53 ∧
      |pos.altitude_msl - ((lib.mavlink_msg_global_position_int_decode message).alt : ℚ) / 1000| ≤
        |((lib.mavlink_msg_global_position_int_decode message).alt : ℚ) / 1000| / 2 ^ 22 ∧
      |pos.altitude_gl -
          ((lib.mavlink_msg_global_position_int_decode message).relative_alt : ℚ) / 1000| ≤
        |((lib.mavlink_msg_global_position_int_decode message).relative_alt : ℚ) / 1000| /
          2 ^ 22 ∧
      |spd.velocity_x - ((lib.mavlink_msg_global_position_int_decode message).vx : ℚ) / 100| ≤
        |((lib.mavlink_msg_global_position_int_decode message).vx : ℚ) / 100| / 2 ^ 24 ∧
      |spd.velocity_y - ((lib.mavlink_msg_global_position_int_decode message).vy : ℚ) / 100| ≤
        |((lib.mavlink_msg_global_position_int_decode message).vy : ℚ) / 100| / 2 ^ 24 ∧
      |spd.velocity_z - ((lib.mavlink_msg_global_position_int_decode message).vz : ℚ) / 100| ≤
        |((lib.mavlink_msg_global_position_int_decode message).vz : ℚ) / 100| / 2 ^ 24 := by
  rw [global_position_streaming_eq lib clock message self hid hs]
  generalize lib.mavlink_msg_global_position_int_decode message = g
  have hd : ∀ n : Int, |doubleDiv n 10000000 - (n : ℚ) / 10 ^ 7| ≤ |(n : ℚ) / 10 ^ 7| / 2 ^ 53 := by
    intro n
    have := doubleDiv_rel_err n 10000000 (by norm_num) (by norm_num)
    norm_num at this ⊢
    exact this
  have ha : ∀ n : Int,
      |floatDiv (floatOfInt n) 1000 - (n : ℚ) / 1000| ≤ |(n : ℚ) / 1000| / 2 ^ 22 := by
    intro n
    have := floatDiv_floatOfInt_rel_err n 1000 (by norm_num) (by norm_num)
    norm_num at this ⊢
    exact this
  have hv : ∀ n : Int, |floatDiv n 100 - (n : ℚ) / 100| ≤ |(n : ℚ) / 100| / 2 ^ 24 := by
    intro n
    have := floatDiv_rel_err n 100 (by norm_num) (by norm_num)
    norm_num at this ⊢
    exact this
  exact ⟨rfl, _, _, rfl, rfl, rfl, rfl, rfl, rfl, rfl, rfl, rfl,
    hd g.lat, hd g.lon, ha g.alt, ha g.relative_alt, hv g.vx, hv g.vy, hv g.vz⟩

/-- C5, amended, at `samplePosition` and a Streaming bridge. -/
theorem global_position_streaming_witness :
    samplePosition.msgid = commonDialect.MAVLINK_MSG_ID_GLOBAL_POSITION_INT ∧
    (sampleBridge State.Streaming)._state = State.Streaming ∧
    (vehicleMavlinkMessageReceived commonDialect sampleClock samplePosition
        (sampleBridge State.Streaming)).1 = sampleBridge State.Streaming :=
  ⟨rfl, rfl,
   (global_position_streaming commonDialect sampleClock samplePosition
      (sampleBridge State.Streaming) rfl rfl).1⟩

/-- C6, as stated, fails: for the raw-GPS frame with `eph = 1` received while
Streaming, the stored HDOP afterwards is the binary32 number
`5368709 / 2 ^ 29`, which is not the rational `1 / 100`. -/
theorem gps_raw_hdop_not_exact :
    (commonDialect.mavlink_msg_gps_raw_int_decode sampleGpsRaw).eph = 1 ∧
    (vehicleMavlinkMessageReceived commonDialect sampleClock sampleGpsRaw
        (sampleBridge State.Streaming)).1._lastHdop = 5368709 / 536870912 ∧
    (vehicleMavlinkMessageReceived commonDialect sampleClock sampleGpsRaw
        (sampleBridge State.Streaming)).1._lastHdop ≠ 1 / 100 := by
  rw [gps_raw_streaming_eq commonDialect sampleClock sampleGpsRaw _ rfl rfl,
    sampleGpsRaw_decode]
  refine ⟨rfl, ?_, ?_⟩
  · simp [floatDiv_one_100]
  · simp only [Nat.reduceEqDiff, if_false, Nat.cast_one, floatDiv_one_100]
    norm_num

/-- C6, amended: a raw-GPS frame received while Streaming submits nothing and
emits nothing, leaves state, flight id and session key as they are, and
stores as HDOP exactly 1 when `eph` is the sentinel 65535, and otherwise the
binary32 quotient of `eph` by `100.f`, a floating-point number within relative
error `2 ^ (-24)` of the rational `eph / 100`. -/
theorem gps_raw_streaming (lib : Mavlink) (clock : Nat → Nat)
    (message : mavlink_message_t) (self : AirMapTelemetry)
    (hid : message.msgid = lib.MAVLINK_MSG_ID_GPS_RAW_INT)
    (hs : self._state = State.Streaming) :
    (vehicleMavlinkMessageReceived lib clock message self).2 = [] ∧
    (vehicleMavlinkMessageReceived lib clock message self).1._state = self._state ∧
    (vehicleMavlinkMessageReceived lib clock message self).1._flightID = self._flightID ∧
    (vehicleMavlinkMessageReceived lib clock message self).1._key = self._key ∧
    ((lib.mavlink_msg_gps_raw_int_decode message).eph = 65535 →
      (vehicleMavlinkMessageReceived lib clock message self).1._lastHdop = 1) ∧
    ((lib.mavlink_msg_gps_raw_int_decode message).eph ≠ 65535 →
      (vehicleMavlinkMessageReceived lib clock message self).1._lastHdop =
        floatDiv (lib.mavlink_msg_gps_raw_int_decode message).eph 100 ∧
      |(vehicleMavlinkMessageReceived lib clock message self).1._lastHdop -
          ((lib.mavlink_msg_gps_raw_int_decode message).eph : ℚ) / 100| ≤
        ((lib.mavlink_msg_gps_raw_int_decode message).eph : ℚ) / 100 / 2 ^ 24) := by
  rw [gps_raw_streaming_eq lib clock message self hid hs]
  refine ⟨rfl, rfl, rfl, rfl, ?_, ?_⟩
  · intro h
    simp [h]
  · intro h
    have herr := floatDiv_rel_err (lib.mavlink_msg_gps_raw_int_decode message).eph 100
      (by norm_num) (by norm_num)
    have hnn : (0 : ℚ) ≤ ((lib.mavlink_msg_gps_raw_int_decode message).eph : ℚ) / 100 := by
      positivity
    rw [if_neg h]
    refine ⟨rfl, ?_⟩
    have hcast : (((lib.mavlink_msg_gps_raw_int_decode message).eph : Int) : ℚ) / ((100 : Nat) : ℚ) =
        ((lib.mavlink_msg_gps_raw_int_decode message).eph : ℚ) / 100 := by
      push_cast; rfl
    rw [hcast, abs_of_nonneg hnn] at herr
    exact herr

/-- C6, amended, at `sampleGpsRaw` and a Streaming bridge. -/
theorem gps_raw_streaming_witness :
    sampleGpsRaw.msgid = commonDialect.MAVLINK_MSG_ID_GPS_RAW_INT ∧
    (sampleBridge State.Streaming)._state = State.Streaming ∧
    (vehicleMavlinkMessageReceived commonDialect sampleClock sampleGpsRaw
        (sampleBridge State.Streaming)).2 = [] :=
  ⟨rfl, rfl,
   (gps_raw_streaming commonDialect sampleClock sampleGpsRaw
      (sampleBridge State.Streaming) rfl rfl).1⟩

/-! ## Completions: start failure, end -/

/-- C7: a start-session failure delivered to a live bridge. In state
StartCommunication the state becomes Idle, flight id, session key and HDOP
stay, and the one effect is the `error` signal with title
"Failed to start telemetry streaming", the message of the error, and its
description when it has one and the empty string when it has none. In any
other state the object is returned unchanged and nothing is emitted. -/
theorem start_callback_failure (self : AirMapTelemetry) (err : Error) :
    (self._state = State.StartCommunication →
      start_flight_communications_callback true (Except.error err) self =
        ({ _state := State.Idle, _flightID := self._flightID, _key := self._key,
           _lastHdop := self._lastHdop },
         [Effect.error "Failed to start telemetry streaming" err.message
            (err.description.getD "")])) ∧
    (self._state ≠ State.StartCommunication →
      start_flight_communications_callback true (Except.error err) self = (self, [])) := by
  constructor
  · intro h
    cases hd : err.description <;> simp [start_flight_communications_callback, h, hd]
  · intro h
    simp [start_flight_communications_callback, h]

/-- C7 at a bridge in StartCommunication and an error without description. -/
theorem start_callback_failure_witness :
    start_flight_communications_callback true
        (Except.error { message := "unauthorized", description := none })
        (sampleBridge State.StartCommunication) =
      (sampleBridge State.Idle,
       [Effect.error "Failed to start telemetry streaming" "unauthorized" ""]) :=
  (start_callback_failure (sampleBridge State.StartCommunication)
    { message := "unauthorized", description := none }).1 rfl

/-- C8: an end-session completion delivered to a live bridge. In state
EndCommunication the session key becomes empty and the state Idle, flight id
and HDOP stay, and nothing is emitted; in any other state the object is
returned unchanged and nothing is emitted. The outcome does not depend on the
result: any two results give the same object and effects. -/
theorem end_callback (self : AirMapTelemetry) (result : Except Error Unit) :
    (self._state = State.EndCommunication →
      end_flight_communications_callback true result self =
        ({ _state := State.Idle, _flightID := self._flightID, _key := "",
           _lastHdop := self._lastHdop }, [])) ∧
    (self._state ≠ State.EndCommunication →
      end_flight_communications_callback true result self = (self, [])) ∧
    (∀ other : Except Error Unit,
      end_flight_communications_callback true other self =
        end_flight_communications_callback true result self) := by
  refine ⟨?_, ?_, ?_⟩
  · intro h
    simp [end_flight_communications_callback, h]
  · intro h
    simp [end_flight_communications_callback, h]
  · intro other
    rfl

/-- C8 at a bridge in EndCommunication and a failed end request. -/
theorem end_callback_witness :
    end_flight_communications_callback true
        (Except.error { message := "timeout", description := some "no route" })
        (sampleBridge State.EndCommunication) =
      ({ _state := State.Idle, _flightID := "F1", _key := "", _lastHdop := 1 }, []) :=
  (end_callback (sampleBridge State.EndCommunication)
    (Except.error { message := "timeout", description := some "no route" })).1 rfl

/-! ## Start and stop from their source states -/

/-- C9: in state Idle, `startTelemetryStream f` sets the state to
StartCommunication and the flight id to `f`, keeps session key and HDOP, and
its effects are one log line followed by one start-session request whose
authorization is the login token and whose id is `f`: exactly one
start-session request and no telemetry submission. -/
theorem startTelemetryStream_idle (shared : AirMapSharedState) (flightID : String)
    (self : AirMapTelemetry) (h : self._state = State.Idle) :
    (startTelemetryStream shared flightID self).1 =
      { _state := State.StartCommunication, _flightID := flightID, _key := self._key,
        _lastHdop := self._lastHdop } ∧
    (startTelemetryStream shared flightID self).2 =
      [Effect.qCInfo "Starting Telemetry stream with flightID" flightID,
       Effect.start_flight_communications
         { authorization := shared.loginToken, id := flightID }] ∧
    (startTelemetryStream shared flightID self).2.filter Effect.isStartRequest =
      [Effect.start_flight_communications
         { authorization := shared.loginToken, id := flightID }] ∧
    (startTelemetryStream shared flightID self).2.filter Effect.isSubmit = [] := by
  simp [startTelemetryStream, h, Effect.isStartRequest, Effect.isSubmit]

/-- C9 at an Idle bridge asked to start flight `"F2"`. -/
theorem startTelemetryStream_idle_witness :
    (sampleBridge State.Idle)._state = State.Idle ∧
    (startTelemetryStream sampleShared "F2" (sampleBridge State.Idle)).2 =
      [Effect.qCInfo "Starting Telemetry stream with flightID" "F2",
       Effect.start_flight_communications { authorization := "token", id := "F2" }] :=
  ⟨rfl, (startTelemetryStream_idle sampleShared "F2" (sampleBridge State.Idle) rfl).2.1⟩

/-- C10: in every state other than Idle (StartCommunication, Streaming and
also EndCommunication), `stopTelemetryStream` sets the state to
EndCommunication, keeps flight id, session key and HDOP, and its effects are
one log line followed by one end-session request whose authorization is the
login token and whose id is the stored flight id: exactly one end-session
request. -/
theorem stopTelemetryStream_not_idle (shared : AirMapSharedState) (self : AirMapTelemetry)
    (h : self._state ≠ State.Idle) :
    (stopTelemetryStream shared self).1 =
      { _state := State.EndCommunication, _flightID := self._flightID, _key := self._key,
        _lastHdop := self._lastHdop } ∧
    (stopTelemetryStream shared self).2 =
      [Effect.qCInfo "Stopping Telemetry stream with flightID" self._flightID,
       Effect.end_flight_communications
         { authorization := shared.loginToken, id := self._flightID }] ∧
    (stopTelemetryStream shared self).2.filter Effect.isEndRequest =
      [Effect.end_flight_communications
         { authorization := shared.loginToken, id := self._flightID }] := by
  simp [stopTelemetryStream, h, Effect.isEndRequest]

/-- C10 at a bridge already in EndCommunication: a second end-session request
goes out. -/
theorem stopTelemetryStream_not_idle_witness :
    (sampleBridge State.EndCommunication)._state ≠ State.Idle ∧
    (stopTelemetryStream sampleShared (sampleBridge State.EndCommunication)).2 =
      [Effect.qCInfo "Stopping Telemetry stream with flightID" "F1",
       Effect.end_flight_communications { authorization := "token", id := "F1" }] :=
  ⟨by decide,
   (stopTelemetryStream_not_idle sampleShared (sampleBridge State.EndCommunication)
      (by decide)).2.1⟩

/-! ## Other message kinds -/

/-- C11: a message whose id is neither `GLOBAL_POSITION_INT` nor `GPS_RAW_INT`
falls through the `switch`: in every state, Streaming included, the object is
returned unchanged and there is no effect at all (no submission, no error). -/
theorem message_other_kind (lib : Mavlink) (clock : Nat → Nat)
    (message : mavlink_message_t) (self : AirMapTelemetry)
    (hpos : message.msgid ≠ lib.MAVLINK_MSG_ID_GLOBAL_POSITION_INT)
    (hgps : message.msgid ≠ lib.MAVLINK_MSG_ID_GPS_RAW_INT) :
    vehicleMavlinkMessageReceived lib clock message self = (self, []) := by
  simp [vehicleMavlinkMessageReceived, hpos, hgps]

/-- C11 at a heartbeat frame and a Streaming bridge. -/
theorem message_other_kind_witness :
    sampleHeartbeat.msgid ≠ commonDialect.MAVLINK_MSG_ID_GLOBAL_POSITION_INT ∧
    sampleHeartbeat.msgid ≠ commonDialect.MAVLINK_MSG_ID_GPS_RAW_INT ∧
    vehicleMavlinkMessageReceived commonDialect sampleClock sampleHeartbeat
        (sampleBridge State.Streaming) = (sampleBridge State.Streaming, []) :=
  ⟨by decide, by decide,
   message_other_kind commonDialect sampleClock sampleHeartbeat
     (sampleBridge State.Streaming) (by decide) (by decide)⟩

/-! ## The start, success, position scenario -/

/-- The bridge after `startTelemetryStream f` and a successful result with key
`k`, from a new bridge. -/
theorem run_start_success (lib : Mavlink) (shared : AirMapSharedState) (f k : String)
    (d : ℚ) :
    run lib shared [Op.startTelemetryStream f, Op.startResult (Except.ok { key := k })]
        (AirMapTelemetry.init d) =
      ({ _state := State.Streaming, _flightID := f, _key := k, _lastHdop := d },
       [Effect.qCInfo "Starting Telemetry stream with flightID" f,
        Effect.start_flight_communications { authorization := shared.loginToken, id := f }]) := by
  simp [run, step, startTelemetryStream, start_flight_communications_callback,
    AirMapTelemetry.init]

/-- Running events one list after another. -/
theorem run_append (lib : Mavlink) (shared : AirMapSharedState) (ops more : List Op)
    (self : AirMapTelemetry) :
    run lib shared (ops ++ more) self =
      ((run lib shared more (run lib shared ops self).1).1,
       (run lib shared ops self).2 ++ (run lib shared more (run lib shared ops self).1).2) := by
  induction ops generalizing self with
  | nil => simp [run]
  | cons op ops ih => simp [run, ih, List.append_assoc]

/-- Running a single event. -/
theorem run_single (lib : Mavlink) (shared : AirMapSharedState) (op : Op)
    (self : AirMapTelemetry) :
    run lib shared [op] self = step lib shared op self := by
  simp [run]

/-- What the `common` dialect decodes from `samplePositionSF`. -/
theorem samplePositionSF_decode :
    commonDialect.mavlink_msg_global_position_int_decode samplePositionSF =
      { lat := 377749000, lon := 0, alt := 0, relative_alt := 0, vx := 0, vy := 0, vz := 0 } := by
  decide

set_option maxRecDepth 100000 in
/-- The binary64 quotient `377749000 / 1e7`. -/
theorem doubleDiv_sf : doubleDiv 377749000 10000000 = 332271534304605 / 8796093022208 := by
  have hr : roundSig 53 (-1022) 377749000 10000000 = (5316344548873680, -47) := by decide
  simp only [doubleDiv, sigValue, hr]
  norm_num

set_option maxRecDepth 100000 in
/-- The binary64 number nearest to `37.7749`. -/
theorem doubleDiv_literal : doubleDiv 377749 10000 = 332271534304605 / 8796093022208 := by
  have hr : roundSig 53 (-1022) 377749 10000 = (5316344548873680, -47) := by decide
  simp only [doubleDiv, sigValue, hr]
  norm_num

/-- The effects of the scenario for any frame of kind global-position. -/
theorem run_scenario_eq (lib : Mavlink) (shared : AirMapSharedState) (clock : Nat → Nat)
    (message : mavlink_message_t) (f k : String) (d : ℚ)
    (hid : message.msgid = lib.MAVLINK_MSG_ID_GLOBAL_POSITION_INT) :
    run lib shared
        ([Op.startTelemetryStream f, Op.startResult (Except.ok { key := k })] ++
          [Op.vehicleMavlinkMessageReceived clock message])
        (AirMapTelemetry.init d) =
      ({ _state := State.Streaming, _flightID := f, _key := k, _lastHdop := d },
       [Effect.qCInfo "Starting Telemetry stream with flightID" f,
        Effect.start_flight_communications { authorization := shared.loginToken, id := f },
        Effect.submit_updates { id := f } k
          [Update.position
             { timestamp := clock 0
               latitude :=
                 doubleDiv (lib.mavlink_msg_global_position_int_decode message).lat 10000000
               longitude :=
                 doubleDiv (lib.mavlink_msg_global_position_int_decode message).lon 10000000
               altitude_msl :=
                 floatDiv (floatOfInt (lib.mavlink_msg_global_position_int_decode message).alt)
                   1000
               altitude_gl :=
                 floatDiv
                   (floatOfInt
                     (lib.mavlink_msg_global_position_int_decode message).relative_alt)
                   1000
               horizontal_accuracy := d },
           Update.speed
             { timestamp := clock 1
               velocity_x :=
                 floatDiv (lib.mavlink_msg_global_position_int_decode message).vx 100
               velocity_y :=
                 floatDiv (lib.mavlink_msg_global_position_int_decode message).vy 100
               velocity_z :=
                 floatDiv (lib.mavlink_msg_global_position_int_decode message).vz 100 }]]) := by
  rw [run_append, run_start_success, run_single]
  simp only [step]
  rw [global_position_streaming_eq lib clock message _ hid rfl]
  rfl

/-- The `double` written `37.7749`. -/
theorem doubleLiteral_37_7749 :
    doubleLiteral 377749 4 = 332271534304605 / 8796093022208 := by
  show doubleDiv 377749 10000 = 332271534304605 / 8796093022208
  exact doubleDiv_literal

/-- C12: from a new bridge, `startTelemetryStream f`, then the success of that
request with key `k`, then one global-position frame with raw latitude `L`
produce exactly one submitted batch, tagged with flight id `f` and key `k`,
whose Position latitude, a `double`, is `L / 1e7`: the binary64 quotient, within
relative error `2 ^ (-53)` of the rational `L / 10 ^ 7`. For `L = 377749000`
(in particular with `"F1"` and `"K1"`) the latitude is the `double` `37.7749`,
that is the binary64 number `332271534304605 / 2 ^ 43` that the literal
`37.7749` denotes. -/
theorem scenario_start_success_position (lib : Mavlink) (shared : AirMapSharedState)
    (clock : Nat → Nat) (message : mavlink_message_t) (f k : String) (d : ℚ)
    (hid : message.msgid = lib.MAVLINK_MSG_ID_GLOBAL_POSITION_INT) :
    ∃ (pos : Position) (spd : Speed),
      (run lib shared
          [Op.startTelemetryStream f, Op.startResult (Except.ok { key := k }),
           Op.vehicleMavlinkMessageReceived clock message]
          (AirMapTelemetry.init d)).2.filter Effect.isSubmit =
        [Effect.submit_updates { id := f } k [Update.position pos, Update.speed spd]] ∧
      pos.latitude =
        doubleDiv (lib.mavlink_msg_global_position_int_decode message).lat 10000000 ∧
      |pos.latitude - ((lib.mavlink_msg_global_position_int_decode message).lat : ℚ) / 10 ^ 7| ≤
        |((lib.mavlink_msg_global_position_int_decode message).lat : ℚ) / 10 ^ 7| / 2 ^ 53 ∧
      ((lib.mavlink_msg_global_position_int_decode message).lat = 377749000 →
        pos.latitude = doubleLiteral 377749 4 ∧
        pos.latitude = 332271534304605 / 8796093022208 ∧
        pos.latitude = doubleDiv 377749 10000 ∧
        |pos.latitude - 37.7749| ≤ 37.7749 / 2 ^ 53) := by
  have h := run_scenario_eq lib shared clock message f k d hid
  simp only [List.cons_append, List.nil_append] at h
  rw [h]
  have hd : ∀ n : Int, |doubleDiv n 10000000 - (n : ℚ) / 10 ^ 7| ≤ |(n : ℚ) / 10 ^ 7| / 2 ^ 53 := by
    intro n
    have := doubleDiv_rel_err n 10000000 (by norm_num) (by norm_num)
    norm_num at this ⊢
    exact this
  refine ⟨_, _, rfl, rfl, hd _, ?_⟩
  intro hL
  show doubleDiv (lib.mavlink_msg_global_position_int_decode message).lat 10000000 = _ ∧
    doubleDiv (lib.mavlink_msg_global_position_int_decode message).lat 10000000 = _ ∧
    doubleDiv (lib.mavlink_msg_global_position_int_decode message).lat 10000000 = _ ∧
    |doubleDiv (lib.mavlink_msg_global_position_int_decode message).lat 10000000 - 37.7749| ≤ _
  rw [hL]
  refine ⟨by rw [doubleDiv_sf, doubleLiteral_37_7749], doubleDiv_sf,
    by rw [doubleDiv_sf, doubleDiv_literal], ?_⟩
  have h0 := hd 377749000
  have e1 : ((377749000 : Int) : ℚ) / 10 ^ 7 = 37.7749 := by norm_num
  rw [e1, abs_of_pos (by norm_num : (0 : ℚ) < 37.7749)] at h0
  exact h0

/-- C12 at `"F1"`, `"K1"` and the frame with raw latitude 377749000: one batch
tagged `("F1", "K1")` whose latitude is the `double` `37.7749`. -/
theorem scenario_start_success_position_witness :
    samplePositionSF.msgid = commonDialect.MAVLINK_MSG_ID_GLOBAL_POSITION_INT ∧
    (commonDialect.mavlink_msg_global_position_int_decode samplePositionSF).lat = 377749000 ∧
    ∃ (pos : Position) (spd : Speed),
      (run commonDialect sampleShared
          [Op.startTelemetryStream "F1", Op.startResult (Except.ok { key := "K1" }),
           Op.vehicleMavlinkMessageReceived sampleClock samplePositionSF]
          (AirMapTelemetry.init 1)).2.filter Effect.isSubmit =
        [Effect.submit_updates { id := "F1" } "K1" [Update.position pos, Update.speed spd]] ∧
      pos.latitude = doubleLiteral 377749 4 := by
  refine ⟨rfl, by rw [samplePositionSF_decode], ?_⟩
  obtain ⟨pos, spd, h1, _, _, h4⟩ :=
    scenario_start_success_position commonDialect sampleShared sampleClock samplePositionSF
      "F1" "K1" 1 rfl
  exact ⟨pos, spd, h1, (h4 (by rw [samplePositionSF_decode])).1⟩

/-! ## Late and orphaned completions -/

/-- C13, evaluated on the execution `startTelemetryStream "F1"`,
`stopTelemetryStream`, end-session result, `startTelemetryStream "F2"`: the
bridge is then in StartCommunication for flight `"F2"` with an empty key, and
the result of the superseded request for `"F1"` is not dropped. Its success
with key `"K1"` puts the bridge into Streaming for flight `"F2"` with key
`"K1"`; its failure puts the bridge back to Idle and emits the `error`
signal. -/
theorem superseded_start_result_after_restart :
    (run commonDialect sampleShared
        [Op.startTelemetryStream "F1", Op.stopTelemetryStream, Op.endResult (Except.ok ()),
         Op.startTelemetryStream "F2"] (AirMapTelemetry.init 1)).1 =
      { _state := State.StartCommunication, _flightID := "F2", _key := "", _lastHdop := 1 } ∧
    step commonDialect sampleShared (Op.startResult (Except.ok { key := "K1" }))
        { _state := State.StartCommunication, _flightID := "F2", _key := "", _lastHdop := 1 } =
      ({ _state := State.Streaming, _flightID := "F2", _key := "K1", _lastHdop := 1 }, []) ∧
    step commonDialect sampleShared
        (Op.startResult (Except.error { message := "gone", description := none }))
        { _state := State.StartCommunication, _flightID := "F2", _key := "", _lastHdop := 1 } =
      ({ _state := State.Idle, _flightID := "F2", _key := "", _lastHdop := 1 },
       [Effect.error "Failed to start telemetry streaming" "gone" ""]) := by
  refine ⟨?_, ?_, ?_⟩
  · simp [run, step, startTelemetryStream, stopTelemetryStream,
      end_flight_communications_callback, AirMapTelemetry.init]
  · simp [step, start_flight_communications_callback]
  · simp [step, start_flight_communications_callback]

/-- C14: once the object is destroyed, the delivery of any start-session or
end-session result does nothing: the liveness test comes first and fails, so
the fields are handed back as they are, whatever they hold, and there is no
effect (no `error` signal, no request, no submission). -/
theorem destroyed_completions_noop (o : Instance) (startResult : Except Error Response)
    (endResult : Except Error Unit) :
    o.destroy.alive = false ∧
    o.destroy.deliverStart startResult = (o.destroy, []) ∧
    o.destroy.deliverEnd endResult = (o.destroy, []) ∧
    (∀ self : AirMapTelemetry,
      start_flight_communications_callback false startResult self = (self, [])) ∧
    (∀ self : AirMapTelemetry,
      end_flight_communications_callback false endResult self = (self, [])) := by
  refine ⟨rfl, ?_, ?_, ?_, ?_⟩
  · simp [Instance.deliverStart, Instance.destroy, start_flight_communications_callback]
  · simp [Instance.deliverEnd, Instance.destroy, end_flight_communications_callback]
  · intro self
    simp [start_flight_communications_callback]
  · intro self
    simp [end_flight_communications_callback]

/-- C14 at a bridge destroyed while its start request was pending: the late
success changes nothing. -/
theorem destroyed_completions_noop_witness :
    (Instance.destroy { alive := true, fields := sampleBridge State.StartCommunication }).deliverStart
        (Except.ok { key := "K2" }) =
      ({ alive := false, fields := sampleBridge State.StartCommunication }, []) :=
  (destroyed_completions_noop { alive := true, fields := sampleBridge State.StartCommunication }
    (Except.ok { key := "K2" }) (Except.ok ())).2.1

/-! ## Start and stop while a transition is pending -/

/-- C15, as stated, fails: in StartCommunication `stopTelemetryStream` changes
the state to EndCommunication and issues an end-session request, and in
EndCommunication it issues a further end-session request. -/
theorem stop_while_pending_not_ignored :
    (stopTelemetryStream sampleShared (sampleBridge State.StartCommunication)).1._state =
      State.EndCommunication ∧
    (stopTelemetryStream sampleShared (sampleBridge State.StartCommunication)).1._state ≠
      (sampleBridge State.StartCommunication)._state ∧
    (stopTelemetryStream sampleShared (sampleBridge State.StartCommunication)).2.filter
        Effect.isEndRequest =
      [Effect.end_flight_communications { authorization := "token", id := "F1" }] ∧
    (stopTelemetryStream sampleShared (sampleBridge State.EndCommunication)).2.filter
        Effect.isEndRequest =
      [Effect.end_flight_communications { authorization := "token", id := "F1" }] := by
  simp [stopTelemetryStream, sampleBridge, sampleShared, Effect.isEndRequest]

/-- C15, amended: in StartCommunication and in EndCommunication,
`startTelemetryStream` is ignored: the object is returned unchanged and no
request of either kind is issued. `stopTelemetryStream` is not ignored: the
state becomes (or stays) EndCommunication, the other fields stay, and exactly
one new end-session request is issued, with no start-session request. -/
theorem start_stop_while_pending (shared : AirMapSharedState) (flightID : String)
    (self : AirMapTelemetry)
    (h : self._state = State.StartCommunication ∨ self._state = State.EndCommunication) :
    (startTelemetryStream shared flightID self).1 = self ∧
    (startTelemetryStream shared flightID self).2.filter Effect.isStartRequest = [] ∧
    (startTelemetryStream shared flightID self).2.filter Effect.isEndRequest = [] ∧
    (stopTelemetryStream shared self).1 =
      { _state := State.EndCommunication, _flightID := self._flightID, _key := self._key,
        _lastHdop := self._lastHdop } ∧
    (stopTelemetryStream shared self).2.filter Effect.isEndRequest =
      [Effect.end_flight_communications
         { authorization := shared.loginToken, id := self._flightID }] ∧
    (stopTelemetryStream shared self).2.filter Effect.isStartRequest = [] := by
  rcases h with h | h <;>
    simp [startTelemetryStream, stopTelemetryStream, h, Effect.isStartRequest,
      Effect.isEndRequest]

/-- C15, amended, at a bridge in StartCommunication. -/
theorem start_stop_while_pending_witness :
    ((sampleBridge State.StartCommunication)._state = State.StartCommunication ∨
      (sampleBridge State.StartCommunication)._state = State.EndCommunication) ∧
    (startTelemetryStream sampleShared "F2" (sampleBridge State.StartCommunication)).1 =
      sampleBridge State.StartCommunication :=
  ⟨Or.inl rfl,
   (start_stop_while_pending sampleShared "F2" (sampleBridge State.StartCommunication)
      (Or.inl rfl)).1⟩

/-! ## Timestamps -/

/-- C17, as stated, fails: with a clock whose consecutive readings are 1000
and 1001, the Position of the submitted batch carries 1000 and the Speed
carries 1001. -/
theorem timestamps_differ :
    ∃ (pos : Position) (spd : Speed),
      (vehicleMavlinkMessageReceived commonDialect sampleClock samplePosition
          (sampleBridge State.Streaming)).2 =
        [Effect.submit_updates { id := "F1" } "K1" [Update.position pos, Update.speed spd]] ∧
      pos.timestamp = 1000 ∧ spd.timestamp = 1001 ∧ pos.timestamp ≠ spd.timestamp := by
  rw [global_position_streaming_eq commonDialect sampleClock samplePosition _ rfl rfl]
  exact ⟨_, _, rfl, rfl, rfl, by decide⟩

/-- C17, amended: for every global-position frame handled while Streaming, the
Position of the submitted batch carries the first reading of the clock in that
call and the Speed carries the second reading; the two timestamps are equal
exactly when these two readings are equal. -/
theorem timestamps_two_readings (lib : Mavlink) (clock : Nat → Nat)
    (message : mavlink_message_t) (self : AirMapTelemetry)
    (hid : message.msgid = lib.MAVLINK_MSG_ID_GLOBAL_POSITION_INT)
    (hs : self._state = State.Streaming) :
    ∃ (pos : Position) (spd : Speed),
      (vehicleMavlinkMessageReceived lib clock message self).2 =
        [Effect.submit_updates { id := self._flightID } self._key
          [Update.position pos, Update.speed spd]] ∧
      pos.timestamp = clock 0 ∧ spd.timestamp = clock 1 ∧
      (pos.timestamp = spd.timestamp ↔ clock 0 = clock 1) := by
  rw [global_position_streaming_eq lib clock message self hid hs]
  exact ⟨_, _, rfl, rfl, rfl, Iff.rfl⟩

/-- C17, amended, at a clock that returns 7 on every reading: both samples
carry 7. -/
theorem timestamps_two_readings_witness :
    samplePosition.msgid = commonDialect.MAVLINK_MSG_ID_GLOBAL_POSITION_INT ∧
    (sampleBridge State.Streaming)._state = State.Streaming ∧
    ∃ (pos : Position) (spd : Speed),
      (vehicleMavlinkMessageReceived commonDialect (fun _ => 7) samplePosition
          (sampleBridge State.Streaming)).2 =
        [Effect.submit_updates { id := "F1" } "K1" [Update.position pos, Update.speed spd]] ∧
      pos.timestamp = 7 ∧ spd.timestamp = 7 := by
  refine ⟨rfl, rfl, ?_⟩
  obtain ⟨pos, spd, h1, h2, h3, _⟩ :=
    timestamps_two_readings commonDialect (fun _ => 7) samplePosition
      (sampleBridge State.Streaming) rfl rfl
  exact ⟨pos, spd, h1, h2, h3⟩

/-! ## Which raw-GPS frame the submitted HDOP comes from -/

/-- Outside Streaming a frame of any kind changes nothing. -/
theorem message_ignored (lib : Mavlink) (clock : Nat → Nat) (message : mavlink_message_t)
    (self : AirMapTelemetry) (h : self._state ≠ State.Streaming) :
    vehicleMavlinkMessageReceived lib clock message self = (self, []) := by
  simp only [vehicleMavlinkMessageReceived, _handleGlobalPositionInt, _handleGPSRawInt,
    isTelemetryStreaming]
  have hb : (self._state == State.Streaming) = false := by simpa using h
  simp [hb]

/-- A frame that is not a raw-GPS frame leaves the stored HDOP as it is. -/
theorem message_not_gps_lastHdop (lib : Mavlink) (clock : Nat → Nat)
    (message : mavlink_message_t) (self : AirMapTelemetry)
    (h : message.msgid ≠ lib.MAVLINK_MSG_ID_GPS_RAW_INT) :
    (vehicleMavlinkMessageReceived lib clock message self).1._lastHdop = self._lastHdop := by
  simp only [vehicleMavlinkMessageReceived, _handleGlobalPositionInt, h, if_false]
  split_ifs <;> rfl

/-- The stored HDOP after one event: the value derived from the frame when the
event is a raw-GPS frame arriving in Streaming, the old value otherwise. -/
theorem step_lastHdop (lib : Mavlink) (shared : AirMapSharedState) (op : Op)
    (self : AirMapTelemetry) :
    (step lib shared op self).1._lastHdop =
      match op with
      | Op.vehicleMavlinkMessageReceived _ message =>
        if message.msgid = lib.MAVLINK_MSG_ID_GPS_RAW_INT ∧ self._state = State.Streaming then
          derivedHdop (lib.mavlink_msg_gps_raw_int_decode message).eph
        else self._lastHdop
      | _ => self._lastHdop := by
  cases op with
  | startTelemetryStream flightID =>
    simp only [step, startTelemetryStream]
    split_ifs <;> rfl
  | stopTelemetryStream =>
    simp only [step, stopTelemetryStream]
    split_ifs <;> rfl
  | vehicleMavlinkMessageReceived clock message =>
    simp only [step]
    by_cases hid : message.msgid = lib.MAVLINK_MSG_ID_GPS_RAW_INT
    · by_cases hs : self._state = State.Streaming
      · have hc : message.msgid = lib.MAVLINK_MSG_ID_GPS_RAW_INT ∧
            self._state = State.Streaming := ⟨hid, hs⟩
        rw [gps_raw_streaming_eq lib clock message self hid hs, if_pos hc]
        simp [derivedHdop, UINT16_MAX]
      · have hc : ¬ (message.msgid = lib.MAVLINK_MSG_ID_GPS_RAW_INT ∧
            self._state = State.Streaming) := fun h => hs h.2
        rw [message_ignored lib clock message self hs, if_neg hc]
    · have hc : ¬ (message.msgid = lib.MAVLINK_MSG_ID_GPS_RAW_INT ∧
          self._state = State.Streaming) := fun h => hid h.1
      rw [message_not_gps_lastHdop lib clock message self hid, if_neg hc]
  | startResult result =>
    simp only [step, start_flight_communications_callback]
    cases result <;> simp <;> split_ifs <;> rfl
  | endResult result =>
    simp only [step, end_flight_communications_callback]
    simp
    split_ifs <;> rfl

/-- The stored HDOP after a sequence of events is the one that goes with the
last raw-GPS frame that arrived in Streaming. -/
theorem run_lastHdop (lib : Mavlink) (shared : AirMapSharedState) (d : ℚ) :
    ∀ (ops : List Op) (self : AirMapTelemetry) (acc : Option Nat),
      self._lastHdop = hdopAfter d acc →
      (run lib shared ops self).1._lastHdop =
        hdopAfter d (lastGpsWhileStreaming lib shared ops self acc)
  | [], self, acc, h => by simpa [run, lastGpsWhileStreaming] using h
  | op :: ops, self, acc, h => by
    simp only [run, lastGpsWhileStreaming]
    apply run_lastHdop lib shared d ops
    rw [step_lastHdop]
    cases op with
    | vehicleMavlinkMessageReceived clock message =>
      simp only
      split_ifs
      · rfl
      · exact h
    | startTelemetryStream flightID => exact h
    | stopTelemetryStream => exact h
    | startResult result => exact h
    | endResult result => exact h

/-- Only a global-position frame arriving in Streaming submits anything. -/
theorem step_submit_only (lib : Mavlink) (shared : AirMapSharedState) (op : Op)
    (self : AirMapTelemetry) (e : Effect) (he : e ∈ (step lib shared op self).2)
    (hsub : e.isSubmit = true) :
    self._state = State.Streaming ∧
    ∃ (clock : Nat → Nat) (message : mavlink_message_t),
      op = Op.vehicleMavlinkMessageReceived clock message ∧
      message.msgid = lib.MAVLINK_MSG_ID_GLOBAL_POSITION_INT := by
  cases op with
  | startTelemetryStream flightID =>
    simp only [step, startTelemetryStream] at he
    split_ifs at he <;> simp at he <;> rcases he with rfl | rfl <;> simp [Effect.isSubmit] at hsub
  | stopTelemetryStream =>
    simp only [step, stopTelemetryStream] at he
    split_ifs at he <;> simp at he
    rcases he with rfl | rfl <;> simp [Effect.isSubmit] at hsub
  | vehicleMavlinkMessageReceived clock message =>
    simp only [step] at he
    by_cases hs : self._state = State.Streaming
    · refine ⟨hs, clock, message, rfl, ?_⟩
      by_contra hid
      by_cases hg : message.msgid = lib.MAVLINK_MSG_ID_GPS_RAW_INT
      · rw [gps_raw_streaming_eq lib clock message self hg hs] at he
        simp at he
      · simp [vehicleMavlinkMessageReceived, hid, hg] at he
    · rw [message_ignored lib clock message self hs] at he
      simp at he
  | startResult result =>
    simp only [step, start_flight_communications_callback] at he
    cases result <;> simp at he <;> split_ifs at he <;> simp at he
    subst he
    simp [Effect.isSubmit] at hsub
  | endResult result =>
    simp only [step, end_flight_communications_callback] at he
    simp at he
    split_ifs at he <;> simp at he

/-- The binary32 quotient `200 / 100.f`. -/
theorem floatDiv_200_100 : floatDiv 200 100 = 2 := by
  have hr : roundSig 24 (-126) 200 100 = (8388608, -22) := by decide
  simp only [floatDiv, sigValue, hr]
  norm_num

/-- The binary32 quotient `50 / 100.f`. -/
theorem floatDiv_50_100 : floatDiv 50 100 = 1 / 2 := by
  have hr : roundSig 24 (-126) 50 100 = (8388608, -24) := by decide
  simp only [floatDiv, sigValue, hr]
  norm_num

/-- C16, as stated, fails: in the execution `sampleRestartOps` followed by a
global-position frame, the last raw-GPS frame delivered to the bridge has
`eph = 50`, for which the derived value is `1 / 2`, but it arrived while the
bridge was Idle and was dropped; the one submitted Position carries HDOP 2,
derived from the frame with `eph = 200` of the previous session. -/
theorem hdop_not_from_last_observed_gps :
    lastGpsObserved commonDialect sampleRestartOps none = some 50 ∧
    derivedHdop 50 = 1 / 2 ∧
    ∃ (pos : Position) (spd : Speed),
      (run commonDialect sampleShared
          (sampleRestartOps ++ [Op.vehicleMavlinkMessageReceived sampleClock samplePosition])
          (AirMapTelemetry.init 1)).2.filter Effect.isSubmit =
        [Effect.submit_updates { id := "F2" } "K2" [Update.position pos, Update.speed spd]] ∧
      pos.horizontal_accuracy = 2 ∧
      pos.horizontal_accuracy ≠ derivedHdop 50 := by
  have h50 : derivedHdop 50 = 1 / 2 := by
    simp [derivedHdop, UINT16_MAX, floatDiv_50_100]
  have hstate : (run commonDialect sampleShared sampleRestartOps
      (AirMapTelemetry.init 1)).1._state = State.Streaming := rfl
  have hlast : lastGpsWhileStreaming commonDialect sampleShared sampleRestartOps
      (AirMapTelemetry.init 1) none = some 200 := rfl
  have hhdop : (run commonDialect sampleShared sampleRestartOps
      (AirMapTelemetry.init 1)).1._lastHdop = 2 := by
    rw [run_lastHdop commonDialect sampleShared 1 sampleRestartOps (AirMapTelemetry.init 1)
      none rfl, hlast]
    simp [hdopAfter, derivedHdop, UINT16_MAX, floatDiv_200_100]
  have hquiet : (run commonDialect sampleShared sampleRestartOps
      (AirMapTelemetry.init 1)).2.filter Effect.isSubmit = [] := rfl
  refine ⟨rfl, h50, ?_⟩
  rw [run_append, run_single]
  simp only [step, List.filter_append, hquiet, List.nil_append]
  rw [global_position_streaming_eq commonDialect sampleClock samplePosition _ rfl hstate]
  refine ⟨_, _, rfl, hhdop, ?_⟩
  show (run commonDialect sampleShared sampleRestartOps
    (AirMapTelemetry.init 1)).1._lastHdop ≠ derivedHdop 50
  rw [hhdop, h50]
  norm_num

/-- C16, amended: in every execution from a new bridge, a global-position
frame that arrives in Streaming submits one batch whose Position carries the
HDOP derived (1 for the sentinel 65535, else the binary32 quotient `eph / 100.f`)
from the last raw-GPS frame that arrived while the bridge was Streaming, in
this or an earlier session, or the default when no raw-GPS frame has arrived
in Streaming yet; raw-GPS frames that arrive in any other state do not count.
Nothing else submits: an effect that is a submission comes from a
global-position frame arriving in Streaming. -/
theorem hdop_from_last_streaming_gps (lib : Mavlink) (shared : AirMapSharedState) (d : ℚ)
    (ops : List Op) (clock : Nat → Nat) (message : mavlink_message_t)
    (hid : message.msgid = lib.MAVLINK_MSG_ID_GLOBAL_POSITION_INT)
    (hs : (run lib shared ops (AirMapTelemetry.init d)).1._state = State.Streaming) :
    (∃ (pos : Position) (spd : Speed),
      (step lib shared (Op.vehicleMavlinkMessageReceived clock message)
          (run lib shared ops (AirMapTelemetry.init d)).1).2 =
        [Effect.submit_updates
           { id := (run lib shared ops (AirMapTelemetry.init d)).1._flightID }
           (run lib shared ops (AirMapTelemetry.init d)).1._key
           [Update.position pos, Update.speed spd]] ∧
      pos.horizontal_accuracy =
        hdopAfter d (lastGpsWhileStreaming lib shared ops (AirMapTelemetry.init d) none)) ∧
    (∀ (op : Op) (self : AirMapTelemetry) (e : Effect),
      e ∈ (step lib shared op self).2 → e.isSubmit = true →
      self._state = State.Streaming ∧
      ∃ (c : Nat → Nat) (m : mavlink_message_t),
        op = Op.vehicleMavlinkMessageReceived c m ∧
        m.msgid = lib.MAVLINK_MSG_ID_GLOBAL_POSITION_INT) := by
  refine ⟨?_, fun op self e he hsub => step_submit_only lib shared op self e he hsub⟩
  simp only [step]
  rw [global_position_streaming_eq lib clock message _ hid hs]
  exact ⟨_, _, rfl,
    run_lastHdop lib shared d ops (AirMapTelemetry.init d) none rfl⟩

/-- C16, amended, at `sampleRestartOps`: the frame with `eph = 50` that arrived
in Idle does not count, the HDOP is the one of the frame with `eph = 200`. -/
theorem hdop_from_last_streaming_gps_witness :
    samplePosition.msgid = commonDialect.MAVLINK_MSG_ID_GLOBAL_POSITION_INT ∧
    (run commonDialect sampleShared sampleRestartOps (AirMapTelemetry.init 1)).1._state =
      State.Streaming ∧
    ∃ (pos : Position) (spd : Speed),
      (step commonDialect sampleShared
          (Op.vehicleMavlinkMessageReceived sampleClock samplePosition)
          (run commonDialect sampleShared sampleRestartOps (AirMapTelemetry.init 1)).1).2 =
        [Effect.submit_updates { id := "F2" } "K2" [Update.position pos, Update.speed spd]] ∧
      pos.horizontal_accuracy = hdopAfter 1 (some 200) := by
  refine ⟨rfl, rfl, ?_⟩
  obtain ⟨pos, spd, h1, h2⟩ :=
    (hdop_from_last_streaming_gps commonDialect sampleShared 1 sampleRestartOps sampleClock
      samplePosition rfl rfl).1
  exact ⟨pos, spd, h1, h2⟩

/-! ## The edges of the state machine -/

/-- A frame of any kind leaves state, flight id and session key as they are. -/
theorem message_keeps_session (lib : Mavlink) (clock : Nat → Nat)
    (message : mavlink_message_t) (self : AirMapTelemetry) :
    (vehicleMavlinkMessageReceived lib clock message self).1._state = self._state ∧
    (vehicleMavlinkMessageReceived lib clock message self).1._flightID = self._flightID ∧
    (vehicleMavlinkMessageReceived lib clock message self).1._key = self._key := by
  simp only [vehicleMavlinkMessageReceived, _handleGlobalPositionInt, _handleGPSRawInt]
  split_ifs <;> exact ⟨rfl, rfl, rfl⟩

/-- An event that takes the bridge into Streaming is a start-session success
delivered in StartCommunication, and the key afterwards is the one it
carries. -/
theorem step_enters_streaming (lib : Mavlink) (shared : AirMapSharedState) (op : Op)
    (self : AirMapTelemetry) (h : (step lib shared op self).1._state = State.Streaming)
    (hn : self._state ≠ State.Streaming) :
    self._state = State.StartCommunication ∧
    ∃ value : Response, op = Op.startResult (Except.ok value) ∧
      (step lib shared op self).1._key = value.key := by
  cases op with
  | startTelemetryStream flightID =>
    simp only [step, startTelemetryStream] at h
    split_ifs at h
    exact absurd h hn
  | stopTelemetryStream =>
    simp only [step, stopTelemetryStream] at h
    split_ifs at h
    exact absurd h hn
  | vehicleMavlinkMessageReceived clock message =>
    simp only [step] at h
    rw [(message_keeps_session lib clock message self).1] at h
    exact absurd h hn
  | startResult result =>
    simp only [step, start_flight_communications_callback] at h ⊢
    by_cases hst : self._state = State.StartCommunication
    · cases result with
      | ok value => exact ⟨hst, value, rfl, by simp [hst]⟩
      | error err => simp [hst] at h
    · simp [hst] at h
      exact absurd h hn
  | endResult result =>
    simp only [step, end_flight_communications_callback] at h
    by_cases hst : self._state = State.EndCommunication
    · simp [hst] at h
    · simp [hst] at h
      exact absurd h hn

/-- C18: one event either leaves the state as it is or takes one of the
documented edges: Idle to StartCommunication by `startTelemetryStream`,
StartCommunication to Streaming by a start success, StartCommunication to Idle
by a start failure, StartCommunication or Streaming to EndCommunication by
`stopTelemetryStream`, EndCommunication to Idle by an end-session result. A
message never changes state, flight id or session key, and Streaming is
entered only from StartCommunication, by a start success. -/
theorem step_documented_edges (lib : Mavlink) (shared : AirMapSharedState) (op : Op)
    (self : AirMapTelemetry) :
    ((step lib shared op self).1._state = self._state ∨
      documentedEdge op self._state (step lib shared op self).1._state = true) ∧
    (∀ (clock : Nat → Nat) (message : mavlink_message_t),
      op = Op.vehicleMavlinkMessageReceived clock message →
      (step lib shared op self).1._state = self._state ∧
      (step lib shared op self).1._flightID = self._flightID ∧
      (step lib shared op self).1._key = self._key) ∧
    ((step lib shared op self).1._state = State.Streaming →
      self._state ≠ State.Streaming →
      self._state = State.StartCommunication ∧
      ∃ value : Response, op = Op.startResult (Except.ok value)) := by
  refine ⟨?_, ?_, ?_⟩
  · obtain ⟨st, f, k, hd⟩ := self
    cases op with
    | startTelemetryStream flightID =>
      cases st <;> simp [step, startTelemetryStream, documentedEdge]
    | stopTelemetryStream =>
      cases st <;> simp [step, stopTelemetryStream, documentedEdge]
    | vehicleMavlinkMessageReceived clock message =>
      left
      exact (message_keeps_session lib clock message _).1
    | startResult result =>
      cases result <;> cases st <;>
        simp [step, start_flight_communications_callback, documentedEdge]
    | endResult result =>
      cases st <;> simp [step, end_flight_communications_callback, documentedEdge]
  · intro clock message hop
    subst hop
    exact message_keeps_session lib clock message self
  · intro h hn
    obtain ⟨h1, value, h2, _⟩ := step_enters_streaming lib shared op self h hn
    exact ⟨h1, value, h2⟩

/-- C18 at a start success delivered in StartCommunication: the edge to
Streaming. -/
theorem step_documented_edges_witness :
    documentedEdge (Op.startResult (Except.ok { key := "K2" }))
      (sampleBridge State.StartCommunication)._state
      (step commonDialect sampleShared (Op.startResult (Except.ok { key := "K2" }))
        (sampleBridge State.StartCommunication)).1._state = true :=
  (step_documented_edges commonDialect sampleShared (Op.startResult (Except.ok { key := "K2" }))
    (sampleBridge State.StartCommunication)).1.resolve_left (by decide)

/-! ## The session key outside a session -/

/-- One event keeps the property that the key is empty whenever the state is
Idle or StartCommunication. -/
theorem step_key_empty (lib : Mavlink) (shared : AirMapSharedState) (op : Op)
    (self : AirMapTelemetry)
    (h : self._state = State.Idle ∨ self._state = State.StartCommunication → self._key = "") :
    (step lib shared op self).1._state = State.Idle ∨
      (step lib shared op self).1._state = State.StartCommunication →
    (step lib shared op self).1._key = "" := by
  obtain ⟨st, f, k, hd⟩ := self
  cases op with
  | startTelemetryStream flightID =>
    cases st <;> simp_all [step, startTelemetryStream]
  | stopTelemetryStream =>
    cases st <;> simp_all [step, stopTelemetryStream]
  | vehicleMavlinkMessageReceived clock message =>
    obtain ⟨h1, _, h3⟩ := message_keeps_session lib clock message
      { _state := st, _flightID := f, _key := k, _lastHdop := hd }
    simp only [step]
    rw [h1, h3]
    exact h
  | startResult result =>
    cases result <;> cases st <;> simp_all [step, start_flight_communications_callback]
  | endResult result =>
    cases st <;> simp_all [step, end_flight_communications_callback]

/-- A sequence of events keeps the property that the key is empty whenever
the state is Idle or StartCommunication. -/
theorem run_key_empty (lib : Mavlink) (shared : AirMapSharedState) :
    ∀ (ops : List Op) (self : AirMapTelemetry),
      (self._state = State.Idle ∨ self._state = State.StartCommunication → self._key = "") →
      (run lib shared ops self).1._state = State.Idle ∨
        (run lib shared ops self).1._state = State.StartCommunication →
      (run lib shared ops self).1._key = ""
  | [], self, h => by simpa [run] using h
  | op :: ops, self, h => by
    simp only [run]
    exact run_key_empty lib shared ops _ (step_key_empty lib shared op self h)

/-- C19: from a new bridge, after any finite sequence of calls, messages and
result deliveries (deliveries in any order and number, stale and repeated ones
included), the session key is empty whenever the state is Idle or
StartCommunication. Consequently Streaming is never entered with a key that
was already stored: every event that takes the bridge into Streaming is a
start-session success, and the key afterwards is the one that success
carries. -/
theorem key_empty_outside_session (lib : Mavlink) (shared : AirMapSharedState) (d : ℚ)
    (ops : List Op) :
    ((run lib shared ops (AirMapTelemetry.init d)).1._state = State.Idle ∨
        (run lib shared ops (AirMapTelemetry.init d)).1._state = State.StartCommunication →
      (run lib shared ops (AirMapTelemetry.init d)).1._key = "") ∧
    (∀ (op : Op) (self : AirMapTelemetry),
      (step lib shared op self).1._state = State.Streaming →
      self._state ≠ State.Streaming →
      ∃ value : Response, op = Op.startResult (Except.ok value) ∧
        (step lib shared op self).1._key = value.key) := by
  refine ⟨run_key_empty lib shared ops _ (fun _ => rfl), ?_⟩
  intro op self h hn
  exact (step_enters_streaming lib shared op self h hn).2

/-- C19 at a full session followed by a repeated delivery of the old success
and a new start: the bridge is in StartCommunication and the key is empty. -/
theorem key_empty_outside_session_witness :
    (run commonDialect sampleShared
        [Op.startTelemetryStream "F1", Op.startResult (Except.ok { key := "K1" }),
         Op.stopTelemetryStream, Op.endResult (Except.ok ()),
         Op.startResult (Except.ok { key := "K1" }), Op.startTelemetryStream "F2"]
        (AirMapTelemetry.init 1)).1._state = State.StartCommunication ∧
    (run commonDialect sampleShared
        [Op.startTelemetryStream "F1", Op.startResult (Except.ok { key := "K1" }),
         Op.stopTelemetryStream, Op.endResult (Except.ok ()),
         Op.startResult (Except.ok { key := "K1" }), Op.startTelemetryStream "F2"]
        (AirMapTelemetry.init 1)).1._key = "" :=
  ⟨rfl,
   (key_empty_outside_session commonDialect sampleShared 1
      [Op.startTelemetryStream "F1", Op.startResult (Except.ok { key := "K1" }),
       Op.stopTelemetryStream, Op.endResult (Except.ok ()),
       Op.startResult (Except.ok { key := "K1" }), Op.startTelemetryStream "F2"]).1
     (Or.inr rfl)⟩

/-! ## The stored HDOP across sessions -/

end AirMap
